import Mathlib

/-!
Verification development for the pg17.4 repository.

The repository contains, besides documentation of the role/membership/privilege
authorization engine (user-manag.sgml, grant.sgml, revoke.sgml) and the
pg_auth_members catalog declaration, the full source of the database-object
size functions (dbsize.c).

Part 1 below is a generic executable reachability/closure engine used by the
membership-graph model.  Part 2 is a shallow embedding of dbsize.c.  Part 3 is
a model of the authorization engine; its executable implementation
(PostgreSQL's acl.c / user.c) is not part of the repository, so those
definitions are modelled from the specification, as their doc comments state.
Theorems follow after all definitions.
-/

/-! ### Part 1: generic closure computation over natural-number nodes -/

/-- Insert a node into a list unless already present (keeps the list Nodup). -/
def insertNew (x : Nat) (l : List Nat) : List Nat :=
  if x ∈ l then l else x :: l

/-- Add every node of `xs` into the accumulator `l`, without duplicates. -/
def addList (xs l : List Nat) : List Nat :=
  xs.foldl (fun a y => insertNew y a) l

/-- One round of closure expansion: add all neighbours of current nodes. -/
def addNbrs (nbrs : Nat → List Nat) (cur : List Nat) : List Nat :=
  cur.foldl (fun acc x => addList (nbrs x) acc) cur

/-- Iterated closure expansion with explicit fuel. -/
def closureIter (nbrs : Nat → List Nat) : Nat → List Nat → List Nat
  | 0, cur => cur
  | n + 1, cur => closureIter nbrs n (addNbrs nbrs cur)

/-! ### Part 2: shallow embedding of dbsize.c -/

/-- One row of the `size_pretty_units` table of dbsize.c: unit name, upper
`limit` prior to half rounding, whether the unit does half rounding, and
the power-of-two `unitbits` of one unit. -/
structure SizePrettyUnit where
  name : String
  limit : Nat
  round : Bool
  unitbits : Nat
  deriving DecidableEq

/-- The `size_pretty_units` array of dbsize.c (the NULL terminator row is
represented by the end of the list). -/
def size_pretty_units : List SizePrettyUnit :=
  [{ name := "bytes", limit := 10 * 1024, round := false, unitbits := 0 },
   { name := "kB", limit := 20 * 1024 - 1, round := true, unitbits := 10 },
   { name := "MB", limit := 20 * 1024 - 1, round := true, unitbits := 20 },
   { name := "GB", limit := 20 * 1024 - 1, round := true, unitbits := 30 },
   { name := "TB", limit := 20 * 1024 - 1, round := true, unitbits := 40 },
   { name := "PB", limit := 20 * 1024 - 1, round := true, unitbits := 50 }]

/-- The `half_rounded` macro of dbsize.c: divide by two rounding away from
zero.  C integer division truncates toward zero, hence `Int.tdiv`. -/
def half_rounded (x : Int) : Int :=
  (x + (if x < 0 then -1 else 1)).tdiv 2

/-- The unit-selection loop of `pg_size_pretty`.  The absolute value is taken
into `uint64` in the C code (`0 - (uint64) size` for negatives), which is
`Int.natAbs`; `size /= ((int64) 1) << bits` is truncating division. -/
def pgSizePrettyLoop : Int → List SizePrettyUnit → String
  | _, [] => ""
  | size, u :: rest =>
    match rest with
    | [] =>
      toString (if u.round then half_rounded size else size) ++ " " ++ u.name
    | u2 :: _ =>
      if size.natAbs < u.limit then
        toString (if u.round then half_rounded size else size) ++ " " ++ u.name
      else
        pgSizePrettyLoop
          (size.tdiv ((2 : Int) ^
            (u2.unitbits - u.unitbits - (if u2.round then 1 else 0)
              + (if u.round then 1 else 0))))
          rest

/-- The `pg_size_pretty` SQL function of dbsize.c on an int64 argument. -/
def pg_size_pretty (size : Int) : String :=
  pgSizePrettyLoop size size_pretty_units

/-- The `numeric_absolute` helper of dbsize.c, on the integral numerics that
arise from an int64 input. -/
def numeric_absolute (n : Int) : Int := |n|

/-- The `numeric_half_rounded` helper of dbsize.c: add or subtract one
according to the sign, then divide by two truncated (numeric_div_trunc). -/
def numeric_half_rounded (n : Int) : Int :=
  (if 0 ≤ n then n + 1 else n - 1).tdiv 2

/-- The `numeric_truncated_divide` helper of dbsize.c. -/
def numeric_truncated_divide (n divisor : Int) : Int :=
  n.tdiv divisor

/-- The unit-selection loop of `pg_size_pretty_numeric`.  Because the input is
the numeric conversion of an int64, every intermediate numeric value is an
integer, so the numeric is represented by `Int`. -/
def pgSizePrettyNumericLoop : Int → List SizePrettyUnit → String
  | _, [] => ""
  | size, u :: rest =>
    match rest with
    | [] =>
      toString (if u.round then numeric_half_rounded size else size) ++ " " ++ u.name
    | u2 :: _ =>
      if numeric_absolute size < (u.limit : Int) then
        toString (if u.round then numeric_half_rounded size else size) ++ " " ++ u.name
      else
        pgSizePrettyNumericLoop
          (numeric_truncated_divide size ((2 : Int) ^
            (u2.unitbits - u.unitbits - (if u2.round then 1 else 0)
              + (if u.round then 1 else 0))))
          rest

/-- The `pg_size_pretty_numeric` SQL function of dbsize.c, applied to the
numeric conversion of an int64 value. -/
def pg_size_pretty_numeric (n : Int) : String :=
  pgSizePrettyNumericLoop n size_pretty_units

/-- A directory entry as observed by `stat` in dbsize.c: its name, its
`st_size`, and whether it is a directory (`S_ISDIR`). -/
structure FsEntry where
  name : String
  size : Nat
  isDir : Bool
  deriving DecidableEq

/-- The file-system and catalog environment the size functions read: the set
of existing directories with their entries, and the database name-to-oid
mapping used by `get_database_oid`. -/
structure SizeEnv where
  dirs : List (String × List FsEntry)
  dbNames : List (String × Nat)
  deriving DecidableEq

/-- An SQL result of the int64-returning size functions: NULL or a value. -/
inductive SqlValue where
  | null
  | val (n : Int)
  deriving DecidableEq

/-- Directory lookup: `AllocateDir` returns NULL exactly when the directory
is absent from the environment. -/
def lookupDir (env : SizeEnv) (path : String) : Option (List FsEntry) :=
  (env.dirs.find? (fun d => d.fst == path)).map (fun d => d.snd)

/-- The "." and ".." entries skipped by every directory scan in dbsize.c. -/
def isDotEntry (s : String) : Bool := s == "." || s == ".."

/-- The `db_dir_size` function of dbsize.c: total `st_size` of the directory's
entries, or 0 if the directory does not exist (`AllocateDir` failed). -/
def db_dir_size (env : SizeEnv) (path : String) : Int :=
  match lookupDir env path with
  | none => 0
  | some entries =>
    ((entries.filter (fun en => !(isDotEntry en.name))).map
      (fun en => (en.size : Int))).sum

/-- The TABLESPACE_VERSION_DIRECTORY constant for PostgreSQL 17. -/
def tablespaceVersionDirectory : String := "PG_17_202406281"

/-- The `calculate_database_size` function of dbsize.c.  `aclOk` abstracts the
CONNECT-privilege/pg_read_all_stats check, which raises an error (result
`none`) when it fails; a missing `pg_tblspc` directory makes `ReadDir` raise
an error as well.  Otherwise the result is the size of `base/<oid>` plus the
sizes of `pg_tblspc/<entry>/<version>/<oid>` for every entry of pg_tblspc. -/
def calculate_database_size (env : SizeEnv) (aclOk : Bool) (dbOid : Nat) : Option Int :=
  if !aclOk then none
  else
    match lookupDir env "pg_tblspc" with
    | none => none
    | some entries =>
      some (db_dir_size env ("base/" ++ toString dbOid) +
        ((entries.filter (fun en => !(isDotEntry en.name))).map
          (fun en => db_dir_size env
            ("pg_tblspc/" ++ en.name ++ "/" ++ tablespaceVersionDirectory ++
              "/" ++ toString dbOid))).sum)

/-- The `pg_database_size_oid` SQL function of dbsize.c: NULL when the
computed size is 0, else the size. -/
def pg_database_size_oid (env : SizeEnv) (aclOk : Bool) (dbOid : Nat) : Option SqlValue :=
  match calculate_database_size env aclOk dbOid with
  | none => none
  | some size => some (if size = 0 then SqlValue.null else SqlValue.val size)

/-- Name-to-oid resolution (`get_database_oid` with missing_ok = false raises
an error, result `none`, for an unknown name). -/
def get_database_oid (env : SizeEnv) (dbName : String) : Option Nat :=
  (env.dbNames.find? (fun d => d.fst == dbName)).map (fun d => d.snd)

/-- The `pg_database_size_name` SQL function of dbsize.c. -/
def pg_database_size_name (env : SizeEnv) (aclOk : Bool) (dbName : String) : Option SqlValue :=
  match get_database_oid env dbName with
  | none => none
  | some dbOid => pg_database_size_oid env aclOk dbOid

/-- The DEFAULTTABLESPACE_OID constant. -/
def DEFAULTTABLESPACE_OID : Nat := 1663

/-- The GLOBALTABLESPACE_OID constant. -/
def GLOBALTABLESPACE_OID : Nat := 1664

/-- The tablespace directory path computed by `calculate_tablespace_size`. -/
def tablespacePath (tblspcOid : Nat) : String :=
  if tblspcOid = DEFAULTTABLESPACE_OID then "base"
  else if tblspcOid = GLOBALTABLESPACE_OID then "global"
  else "pg_tblspc/" ++ toString tblspcOid ++ "/" ++ tablespaceVersionDirectory

/-- The `calculate_tablespace_size` function of dbsize.c: -1 when the
tablespace directory cannot be found, else the total size of its entries,
descending one level into subdirectories via `db_dir_size`.  `aclOk`
abstracts the CREATE-privilege/pg_read_all_stats check. -/
def calculate_tablespace_size (env : SizeEnv) (aclOk : Bool) (tblspcOid : Nat) : Option Int :=
  if !aclOk then none
  else
    match lookupDir env (tablespacePath tblspcOid) with
    | none => some (-1)
    | some entries =>
      some (((entries.filter (fun en => !(isDotEntry en.name))).map
        (fun en =>
          (if en.isDir then
            db_dir_size env (tablespacePath tblspcOid ++ "/" ++ en.name)
           else 0) + (en.size : Int))).sum)

/-- The `pg_tablespace_size_oid` SQL function of dbsize.c: NULL exactly when
the computed size is negative (the missing-directory sentinel). -/
def pg_tablespace_size_oid (env : SizeEnv) (aclOk : Bool) (tblspcOid : Nat) : Option SqlValue :=
  match calculate_tablespace_size env aclOk tblspcOid with
  | none => none
  | some size => some (if size < 0 then SqlValue.null else SqlValue.val size)

/-! ### Part 3: the authorization engine, modelled from the specification

The repository documents the role/membership/privilege engine
(user-manag.sgml, grant.sgml, revoke.sgml) and declares its catalog
(pg_auth_members.h), but the executable implementation (acl.c, user.c) is
not among the source files, so the operations below are modelled from the
specification's component design. -/

/-- Modelled from the spec: the scope qualifier of a membership edge,
cluster-wide or restricted to one database (the `dbid` column of
pg_auth_members, InvalidOid meaning Global). -/
inductive Scope where
  | Global
  | Database (db : Nat)
  deriving DecidableEq

/-- Modelled from the spec: a grantee of a privilege grant, a named role or
the PUBLIC pseudo-role. -/
inductive Grantee where
  | Role (r : Nat)
  | Public
  deriving DecidableEq

/-- Modelled from the spec: the role directory record with the static
attributes relevant to the modelled operations. -/
structure RoleAttr where
  rid : Nat
  isSuperuser : Bool
  canCreateRole : Bool
  deriving DecidableEq

/-- Modelled from the spec: a membership edge of the Membership Graph
(a pg_auth_members row), with its identifier and the dependency reference
of the revocation engine. -/
structure MemberEdge where
  granted : Nat
  member : Nat
  grantor : Nat
  admin : Bool
  inherit : Bool
  setOpt : Bool
  scope : Scope
  eid : Nat
  parentRef : Option Nat
  deriving DecidableEq

/-- Modelled from the spec: a privilege grant record of the Privilege Grant
Store, with its identifier and parent-grant dependency reference. -/
structure PrivGrant where
  gid : Nat
  obj : Nat
  kind : Nat
  grantee : Grantee
  grantor : Nat
  grantOption : Bool
  parentRef : Option Nat
  deriving DecidableEq

/-- Modelled from the spec: the persistent state of the engine: role
directory, membership graph, privilege grant store, object ownership, and an
identifier counter. -/
structure AuthState where
  roles : List RoleAttr
  edges : List MemberEdge
  grants : List PrivGrant
  owners : List (Nat × Nat)
  nextId : Nat
  deriving DecidableEq

/-- Modelled from the spec: the per-session authorization context with login
role, active role and connected database. -/
structure SessionCtx where
  loginRole : Nat
  activeRole : Nat
  db : Nat
  deriving DecidableEq

/-- The scope in which a session evaluates privileges: its database. -/
def ctxScope (ctx : SessionCtx) : Scope := Scope.Database ctx.db

/-- The PUBLIC pseudo-role sentinel identifier (ACL_ID_PUBLIC = 0). -/
def publicSentinel : Nat := 0

/-- The bootstrap superuser sentinel identifier (BOOTSTRAP_SUPERUSERID = 10). -/
def bootstrapSentinel : Nat := 10

/-- Modelled from the spec: the edges visible in a scope, the union of
Global-scope edges and the scope's own edges. -/
def visibleEdges (st : AuthState) (sc : Scope) : List MemberEdge :=
  st.edges.filter (fun e => decide (e.scope = Scope.Global ∨ e.scope = sc))

/-- Neighbours in the granted-to-member direction, used by the cycle check. -/
def nbrsDown (es : List MemberEdge) (x : Nat) : List Nat :=
  (es.filter (fun e => decide (e.granted = x))).map (fun e => e.member)

/-- Neighbours in the member-to-granted direction along edges whose inherit
option is set, used by the inherited-privilege closure. -/
def nbrsInherit (es : List MemberEdge) (x : Nat) : List Nat :=
  (es.filter (fun e => decide (e.member = x) && e.inherit)).map (fun e => e.granted)

/-- Neighbours in the member-to-granted direction along edges whose set
option is set, used by the SET-eligibility closure. -/
def nbrsSetOpt (es : List MemberEdge) (x : Nat) : List Nat :=
  (es.filter (fun e => decide (e.member = x) && e.setOpt)).map (fun e => e.granted)

/-- Reachability through at least one edge, in the granted-to-member
direction: the executable cycle check of the membership graph. -/
def hasPathDown (es : List MemberEdge) (x y : Nat) : Bool :=
  decide (y ∈ closureIter (nbrsDown es) (es.length + 1) (nbrsDown es x).dedup)

/-- Modelled from the spec: `inheritedClosure(root, scope)`, the set of roles
reachable from `root` along edges with the inherit option among the edges
visible in `scope`; membership-graph traversal code is not in the
repository. -/
def inheritedClosure (st : AuthState) (root : Nat) (sc : Scope) : List Nat :=
  closureIter (nbrsInherit (visibleEdges st sc)) ((visibleEdges st sc).length + 1) [root]

/-- Modelled from the spec: `setEligibleClosure(root, scope)`, the set of
roles reachable from `root` along edges with the set option among the edges
visible in `scope`; `root` belongs to its own closure. -/
def setEligibleClosure (st : AuthState) (root : Nat) (sc : Scope) : List Nat :=
  closureIter (nbrsSetOpt (visibleEdges st sc)) ((visibleEdges st sc).length + 1) [root]

/-- Modelled from the spec: the error taxonomy of the engine. -/
inductive AuthErr where
  | CycleError
  | InvalidGranteeError
  | PermissionDenied
  | DependencyError (blockers : List Nat)
  | NotAuthorized
  | InvalidName
  deriving DecidableEq

/-- Modelled from the spec: the warning-level diagnostics of the engine. -/
inductive Diag where
  | PartialGrantWarning
  deriving DecidableEq

/-- The uniqueness key of a membership edge: (grantedRole, memberRole,
grantor, scope), the pg_auth_members_role_member_db_index columns. -/
def edgeKey (e : MemberEdge) : Nat × Nat × Nat × Scope :=
  (e.granted, e.member, e.grantor, e.scope)

/-- Whether an edge carries the given uniqueness key. -/
def edgeKeyMatches (e : MemberEdge) (g m gr : Nat) (sc : Scope) : Bool :=
  decide (e.granted = g ∧ e.member = m ∧ e.grantor = gr ∧ e.scope = sc)

/-- Modelled from the spec: insert a membership edge, or update the option
flags in place when the (granted, member, grantor, scope) key already
exists. -/
def upsertEdge (es : List MemberEdge) (g m gr : Nat) (ad inh so : Bool) (sc : Scope)
    (nid : Nat) (parent : Option Nat) : List MemberEdge :=
  if es.any (fun e => edgeKeyMatches e g m gr sc) then
    es.map (fun e => if edgeKeyMatches e g m gr sc then
      { e with admin := ad, inherit := inh, setOpt := so } else e)
  else
    { granted := g, member := m, grantor := gr, admin := ad, inherit := inh,
      setOpt := so, scope := sc, eid := nid, parentRef := parent } :: es

/-- Modelled from the spec: `addEdge` of the Membership Graph.  It fails with
CycleError when `granted` is already reachable from `member` through the
edges visible in `scope`, fails with InvalidGranteeError when the member is
PUBLIC or the edge is a self-loop, and otherwise inserts or updates the edge
in place on its uniqueness key. -/
def addEdge (st : AuthState) (g m gr : Nat) (ad inh so : Bool) (sc : Scope)
    (parent : Option Nat) : Except AuthErr AuthState :=
  if hasPathDown (visibleEdges st sc) m g then .error .CycleError
  else if decide (m = publicSentinel ∨ g = m) then .error .InvalidGranteeError
  else .ok { st with
    edges := upsertEdge st.edges g m gr ad inh so sc st.nextId parent,
    nextId := st.nextId + 1 }

/-- Whether a role is recorded as a superuser in the role directory. -/
def isSuperuser (st : AuthState) (r : Nat) : Bool :=
  st.roles.any (fun a => decide (a.rid = r) && a.isSuperuser)

/-- Whether a role is recorded with the create-role capability. -/
def canCreateRole (st : AuthState) (r : Nat) : Bool :=
  st.roles.any (fun a => decide (a.rid = r) && a.canCreateRole)

/-- Whether a role identifier exists in the role directory. -/
def roleExists (st : AuthState) (r : Nat) : Bool :=
  st.roles.any (fun a => decide (a.rid = r))

/-- Whether an edge (target, actor, *, admin = true) exists at one scope. -/
def adminEdgeAt (st : AuthState) (actor target : Nat) (sc : Scope) : Bool :=
  st.edges.any (fun e =>
    decide (e.granted = target ∧ e.member = actor ∧ e.scope = sc) && e.admin)

/-- Modelled from the spec: `hasAdminOption(actor, target, scope)`: actor is
a superuser, or holds a Global-scope admin edge on target, or, for a
database scope, a same-database admin edge on target. -/
def hasAdminOption (st : AuthState) (actor target : Nat) (sc : Scope) : Bool :=
  isSuperuser st actor || adminEdgeAt st actor target Scope.Global ||
    (match sc with
     | Scope.Global => false
     | Scope.Database d => adminEdgeAt st actor target (Scope.Database d))

/-- Modelled from the spec: admin authority for a grant or revoke in a scope
while connected to `connectedDb`: a Global admin option always suffices; a
database-scope admin option suffices only for operations on that same
database while connected to it. -/
def mayAdminister (st : AuthState) (actor target : Nat) (sc : Scope) (connectedDb : Nat) : Bool :=
  isSuperuser st actor || adminEdgeAt st actor target Scope.Global ||
    (match sc with
     | Scope.Global => false
     | Scope.Database d =>
       decide (connectedDb = d) && adminEdgeAt st actor target (Scope.Database d))

/-- The admin-option edge recorded as authorizing a membership grant, for the
dependency tracking of the revocation engine. -/
def findAdminEdge (st : AuthState) (actor target : Nat) (sc : Scope) : Option Nat :=
  (st.edges.find? (fun e =>
    decide ((e.scope = Scope.Global ∨ e.scope = sc) ∧ e.granted = target ∧ e.member = actor)
      && e.admin)).map (fun e => e.eid)

/-- Modelled from the spec: the grant-membership command: the actor needs
admin authority on the granted role for the requested scope, then the edge is
added with the actor as grantor and the authorizing admin edge as dependency
parent (none for superusers). -/
def grantMembership (st : AuthState) (ctx : SessionCtx) (actor g m : Nat)
    (ad inh so : Bool) (sc : Scope) : Except AuthErr AuthState :=
  if !mayAdminister st actor g sc ctx.db then .error .PermissionDenied
  else addEdge st g m actor ad inh so sc
    (if isSuperuser st actor then none else findAdminEdge st actor g sc)

/-- Modelled from the spec: `setRole(target)` succeeds iff the target is the
login role or lies in the SET-eligibility closure of the login role (never of
the current active role); on failure the session context is unchanged. -/
def setRole (st : AuthState) (ctx : SessionCtx) (target : Nat) : Except AuthErr SessionCtx :=
  if decide (target = ctx.loginRole)
      || decide (target ∈ setEligibleClosure st ctx.loginRole (ctxScope ctx)) then
    .ok { ctx with activeRole := target }
  else .error .NotAuthorized

/-- Modelled from the spec: `resetRole()` restores the login role. -/
def resetRole (ctx : SessionCtx) : SessionCtx := { ctx with activeRole := ctx.loginRole }

/-- Whether a grant row exists for the object, privilege kind and grantee. -/
def hasGrantOn (st : AuthState) (obj kind : Nat) (gt : Grantee) : Bool :=
  st.grants.any (fun g => decide (g.obj = obj ∧ g.kind = kind ∧ g.grantee = gt))

/-- Modelled from the spec: `effectivePrivilege(actor, object, kind, ctx)`:
the kind is granted on the object to the actor directly, to a role in the
inherited closure of the session's active role in the session's scope, or to
PUBLIC; a revoked grant is no longer in the store, so only unrevoked grants
contribute. -/
def effectivePrivilege (st : AuthState) (actor obj kind : Nat) (ctx : SessionCtx) : Bool :=
  hasGrantOn st obj kind (Grantee.Role actor) ||
  (inheritedClosure st ctx.activeRole (ctxScope ctx)).any
    (fun r => hasGrantOn st obj kind (Grantee.Role r)) ||
  hasGrantOn st obj kind Grantee.Public

/-- The effective privilege check a session performs for itself: the actor is
the session's active role. -/
def sessionPrivilege (st : AuthState) (ctx : SessionCtx) (obj kind : Nat) : Bool :=
  effectivePrivilege st ctx.activeRole obj kind ctx

/-- Whether a grantee covers an actor: the actor's own inherited closure in
the scope for a role grantee, and everyone for PUBLIC. -/
def granteeCovers (st : AuthState) (actor : Nat) (sc : Scope) (gt : Grantee) : Bool :=
  match gt with
  | Grantee.Public => true
  | Grantee.Role r => decide (r ∈ inheritedClosure st actor sc)

/-- Whether the actor holds any privilege at all on the object (directly,
via the inherited closure, or via PUBLIC). -/
def holdsAnyOnObject (st : AuthState) (actor obj : Nat) (sc : Scope) : Bool :=
  st.grants.any (fun g => decide (g.obj = obj) && granteeCovers st actor sc g.grantee)

/-- Whether the actor holds a grant option for a privilege kind on the
object; grant options never come from PUBLIC grants. -/
def holdsGrantOption (st : AuthState) (actor obj kind : Nat) (sc : Scope) : Bool :=
  st.grants.any (fun g => decide (g.obj = obj ∧ g.kind = kind) && g.grantOption &&
    (match g.grantee with
     | Grantee.Role r => decide (r ∈ inheritedClosure st actor sc)
     | Grantee.Public => false))

/-- The grant recorded as authorizing a grant by this actor on (obj, kind),
for the dependency tracking of the revocation engine (first matching
grant-option row, a deterministic choice of the spec's open question). -/
def findAuthorizingGrant (st : AuthState) (actor obj kind : Nat) (sc : Scope) : Option Nat :=
  (st.grants.find? (fun g => decide (g.obj = obj ∧ g.kind = kind) && g.grantOption &&
    (match g.grantee with
     | Grantee.Role r => decide (r ∈ inheritedClosure st actor sc)
     | Grantee.Public => false))).map (fun g => g.gid)

/-- The recorded owner of an object, supplied by the ownership collaborator. -/
def ownerOf (st : AuthState) (obj : Nat) : Option Nat :=
  (st.owners.find? (fun p => decide (p.fst = obj))).map (fun p => p.snd)

/-- Whether the actor owns the object. -/
def isOwner (st : AuthState) (actor obj : Nat) : Bool :=
  decide (ownerOf st obj = some actor)

/-- The uniqueness key test for a privilege grant row:
(object, kind, grantee, grantor). -/
def grantKeyMatches (g : PrivGrant) (obj kind : Nat) (gt : Grantee) (grantor : Nat) : Bool :=
  decide (g.obj = obj ∧ g.kind = kind ∧ g.grantee = gt ∧ g.grantor = grantor)

/-- Modelled from the spec: insert a privilege grant, or merge into the
existing row with the same (object, kind, grantee, grantor) key, refreshing
the grant option only upward. -/
def upsertGrant (gs : List PrivGrant) (obj kind : Nat) (gt : Grantee) (grantor : Nat)
    (wopt : Bool) (nid : Nat) (parent : Option Nat) : List PrivGrant :=
  if gs.any (fun g => grantKeyMatches g obj kind gt grantor) then
    gs.map (fun g => if grantKeyMatches g obj kind gt grantor then
      { g with grantOption := g.grantOption || wopt } else g)
  else
    { gid := nid, obj := obj, kind := kind, grantee := gt, grantor := grantor,
      grantOption := wopt, parentRef := parent } :: gs

/-- Insert grant rows for a list of privilege kinds, recording for each the
authorizing parent grant (none for superusers and owners). -/
def applyGrantKinds (st : AuthState) (grantor obj : Nat) (kinds : List Nat) (gt : Grantee)
    (wopt : Bool) (sc : Scope) : AuthState :=
  kinds.foldl (fun s k =>
    { s with
      grants := upsertGrant s.grants obj k gt grantor wopt s.nextId
        (if isSuperuser st grantor || isOwner st grantor obj then none
         else findAuthorizingGrant st grantor obj k sc),
      nextId := s.nextId + 1 }) st

/-- Modelled from the spec: the `grant` command of the Privilege Grant Store.
Superusers and the object's owner hold every grant option implicitly.  A
non-owner with no privilege at all on the object fails with
PermissionDenied; otherwise the command proceeds for exactly the subset of
requested kinds whose grant option is held and surfaces a
PartialGrantWarning for the rest.  A with-grant-option grant to PUBLIC is
rejected with InvalidGranteeError. -/
def grant (st : AuthState) (obj : Nat) (kinds : List Nat) (gt : Grantee) (grantor : Nat)
    (wopt : Bool) (sc : Scope) : Except AuthErr (AuthState × List Diag) :=
  if isSuperuser st grantor || isOwner st grantor obj then
    if wopt && decide (gt = Grantee.Public) then .error .InvalidGranteeError
    else .ok (applyGrantKinds st grantor obj kinds gt wopt sc, [])
  else if !holdsAnyOnObject st grantor obj sc then .error .PermissionDenied
  else if wopt && decide (gt = Grantee.Public) then .error .InvalidGranteeError
  else
    .ok (applyGrantKinds st grantor obj
          (kinds.filter (fun k => holdsGrantOption st grantor obj k sc)) gt wopt sc,
      if decide (kinds.filter (fun k => holdsGrantOption st grantor obj k sc) = kinds)
      then [] else [Diag.PartialGrantWarning])

/-- Dependency neighbours among privilege grants: the grants whose parent
reference is the given grant identifier. -/
def nbrsDep (gs : List PrivGrant) (i : Nat) : List Nat :=
  (gs.filter (fun g => decide (g.parentRef = some i))).map (fun g => g.gid)

/-- The identifiers of the revoker's own grant rows matching the revoked
(object, kind, grantee): the roots of the revocation. -/
def rootGrantIds (st : AuthState) (obj kind : Nat) (gt : Grantee) (revoker : Nat) : List Nat :=
  ((st.grants.filter (fun g => grantKeyMatches g obj kind gt revoker)).map
    (fun g => g.gid)).dedup

/-- The full removal set of a revocation: the dependency closure of the
roots along parent-grant references. -/
def revokeRemovalSet (st : AuthState) (obj kind : Nat) (gt : Grantee) (revoker : Nat) : List Nat :=
  closureIter (nbrsDep st.grants) (st.grants.length + 1) (rootGrantIds st obj kind gt revoker)

/-- Modelled from the spec: the `revoke` command of the Privilege Grant
Store.  It removes the revoker's own grant rows for (object, kind, grantee)
together with every grant whose parent-grant chain passes through a removed
grant; under RESTRICT (cascade = false) it fails with DependencyError
naming the dependent grants and applies no mutation; with optionOnly it
clears only the grant-option flag on the revoker's rows. -/
def revoke (st : AuthState) (obj kind : Nat) (gt : Grantee) (revoker : Nat)
    (optionOnly cascade : Bool) : Except AuthErr AuthState :=
  let rids := rootGrantIds st obj kind gt revoker
  let rem := revokeRemovalSet st obj kind gt revoker
  let dependents := rem.filter (fun i => decide (¬ i ∈ rids))
  if !dependents.isEmpty && !cascade then .error (.DependencyError dependents)
  else if optionOnly then
    let kept := st.grants.filter (fun g => decide (g.gid ∈ rids) || decide (¬ g.gid ∈ rem))
    let cleared := kept.map
      (fun g => if decide (g.gid ∈ rids) then { g with grantOption := false } else g)
    .ok { st with grants := cleared }
  else
    .ok { st with grants := st.grants.filter (fun g => decide (¬ g.gid ∈ rem)) }

/-- Dependency neighbours among membership edges: the edges whose parent
reference is the given edge identifier. -/
def nbrsDepE (es : List MemberEdge) (i : Nat) : List Nat :=
  (es.filter (fun e => decide (e.parentRef = some i))).map (fun e => e.eid)

/-- The edges matched by a removeEdge command: (granted, member, scope) and,
when a grantor is named, that grantor. -/
def removalTargets (st : AuthState) (g m : Nat) (sc : Scope) (grOpt : Option Nat) :
    List MemberEdge :=
  st.edges.filter (fun e =>
    decide (e.granted = g ∧ e.member = m ∧ e.scope = sc) &&
    (match grOpt with
     | none => true
     | some x => decide (e.grantor = x)))

/-- The root identifiers of a removeEdge command: the identifiers of the
matched edges themselves. -/
def edgeRootIds (st : AuthState) (g m : Nat) (sc : Scope) (grOpt : Option Nat) : List Nat :=
  ((removalTargets st g m sc grOpt).map (fun e => e.eid)).dedup

/-- The full removal set of a removeEdge command: the dependency closure of
the matched edges along parent references among the membership edges. -/
def edgeRemovalSet (st : AuthState) (g m : Nat) (sc : Scope) (grOpt : Option Nat) : List Nat :=
  closureIter (nbrsDepE st.edges) (st.edges.length + 1) (edgeRootIds st g m sc grOpt)

/-- Modelled from the spec: `removeEdge` of the Membership Graph.  Only a
superuser, or the grantor of every matched edge, may remove them; the
removal cascades along parent references or fails with DependencyError
under RESTRICT. -/
def removeEdge (st : AuthState) (actor g m : Nat) (sc : Scope) (grOpt : Option Nat)
    (cascade : Bool) : Except AuthErr AuthState :=
  let targets := removalTargets st g m sc grOpt
  if !(isSuperuser st actor || targets.all (fun e => decide (e.grantor = actor))) then
    .error .PermissionDenied
  else
    let rids := (targets.map (fun e => e.eid)).dedup
    let rem := closureIter (nbrsDepE st.edges) (st.edges.length + 1) rids
    let dependents := rem.filter (fun i => decide (¬ i ∈ rids))
    if !dependents.isEmpty && !cascade then .error (.DependencyError dependents)
    else .ok { st with edges := st.edges.filter (fun e => decide (¬ e.eid ∈ rem)) }

/-- Modelled from the spec: role creation.  The creator needs the create-role
capability (and only superusers may create superusers); when the creator is
not a superuser, the new role is automatically granted back to the creator
with grantor the bootstrap sentinel, admin true, inherit false, set false,
at Global scope. -/
def createRole (st : AuthState) (creator rid : Nat) (newSuper newCreateRole : Bool) :
    Except AuthErr AuthState :=
  if !(isSuperuser st creator || canCreateRole st creator) then .error .PermissionDenied
  else if newSuper && !isSuperuser st creator then .error .PermissionDenied
  else if roleExists st rid || decide (rid = publicSentinel) then .error .InvalidName
  else
    let st1 := { st with roles :=
      { rid := rid, isSuperuser := newSuper, canCreateRole := newCreateRole } :: st.roles }
    if isSuperuser st creator then .ok st1
    else .ok { st1 with
      edges := upsertEdge st1.edges rid creator bootstrapSentinel true false false
        Scope.Global st1.nextId none,
      nextId := st1.nextId + 1 }

/-- The state-mutating commands of the administrative surface. -/
inductive Cmd where
  | createR (creator rid : Nat) (newSuper newCreateRole : Bool)
  | grantM (ctx : SessionCtx) (actor g m : Nat) (ad inh so : Bool) (sc : Scope)
  | revokeM (actor g m : Nat) (sc : Scope) (grOpt : Option Nat) (cascade : Bool)
  | grantP (obj : Nat) (kinds : List Nat) (gt : Grantee) (grantor : Nat) (wopt : Bool) (sc : Scope)
  | revokeP (obj kind : Nat) (gt : Grantee) (revoker : Nat) (optionOnly cascade : Bool)

/-- Run one command, propagating its error. -/
def runCmd (st : AuthState) : Cmd → Except AuthErr AuthState
  | Cmd.createR c r s cr => createRole st c r s cr
  | Cmd.grantM ctx a g m ad inh so sc => grantMembership st ctx a g m ad inh so sc
  | Cmd.revokeM a g m sc gro c => removeEdge st a g m sc gro c
  | Cmd.grantP o ks gt gr w sc => (grant st o ks gt gr w sc).map (fun p => p.fst)
  | Cmd.revokeP o k gt rv oo c => revoke st o k gt rv oo c

/-- The state transition of one command: a failing command leaves the state
unchanged (every error is all-or-nothing). -/
def applyCmd (st : AuthState) (c : Cmd) : AuthState :=
  match runCmd st c with
  | .ok st2 => st2
  | .error _ => st

/-- The freshly initialized state: only the bootstrap superuser exists. -/
def initState : AuthState :=
  { roles := [{ rid := bootstrapSentinel, isSuperuser := true, canCreateRole := true }],
    edges := [], grants := [], owners := [], nextId := 0 }

/-- The states reachable from the initial state through the public
state-mutating operations. -/
inductive ReachableState : AuthState → Prop where
  | init : ReachableState initState
  | step (st : AuthState) (c : Cmd) : ReachableState st → ReachableState (applyCmd st c)

/-- One traversal step of the cycle check, from a granted role down to one of
its members. -/
def EdgeStepDown (es : List MemberEdge) (x y : Nat) : Prop :=
  ∃ e ∈ es, e.granted = x ∧ e.member = y

/-- One traversal step of the inherited-privilege closure: an edge with the
inherit option, from its member up to its granted role. -/
def InheritStep (es : List MemberEdge) (x y : Nat) : Prop :=
  ∃ e ∈ es, e.member = x ∧ e.granted = y ∧ e.inherit = true

/-- One traversal step of the SET-eligibility closure: an edge with the set
option, from its member up to its granted role. -/
def SetOptStep (es : List MemberEdge) (x y : Nat) : Prop :=
  ∃ e ∈ es, e.member = x ∧ e.granted = y ∧ e.setOpt = true

/-- One dependency step among privilege grants: grant j records grant i as
its parent. -/
def DepStep (gs : List PrivGrant) (i j : Nat) : Prop :=
  ∃ g ∈ gs, g.parentRef = some i ∧ g.gid = j

/-- One dependency step among membership edges: edge `j`'s parent reference
is edge `i`. -/
def DepStepE (es : List MemberEdge) (i j : Nat) : Prop :=
  ∃ e ∈ es, e.parentRef = some i ∧ e.eid = j

/-- An unrevoked grant of the kind on the object to the grantee exists. -/
def GrantedTo (st : AuthState) (obj kind : Nat) (gt : Grantee) : Prop :=
  ∃ g ∈ st.grants, g.obj = obj ∧ g.kind = kind ∧ g.grantee = gt

/-- Membership edges are unique on (grantedRole, memberRole, grantor, scope),
the key of pg_auth_members_role_member_db_index. -/
def KeyUnique (es : List MemberEdge) : Prop := (es.map edgeKey).Nodup

/-- Decidable equality of command results, for evaluating the model on
concrete inputs. -/
instance {ε α : Type} [DecidableEq ε] [DecidableEq α] : DecidableEq (Except ε α) := fun x y =>
  match x, y with
  | .ok a, .ok b =>
    if h : a = b then isTrue (by rw [h]) else
      isFalse (fun hc => h (Except.ok.inj hc))
  | .error a, .error b =>
    if h : a = b then isTrue (by rw [h]) else
      isFalse (fun hc => h (Except.error.inj hc))
  | .ok _, .error _ => isFalse (fun hc => Except.noConfusion hc)
  | .error _, .ok _ => isFalse (fun hc => Except.noConfusion hc)

/-! ### Lemmas about the generic closure engine -/

/-- The step relation induced by a neighbour function. -/
def StepRel (nbrs : Nat → List Nat) (x y : Nat) : Prop := y ∈ nbrs x

theorem closureIter_zero (nbrs : Nat → List Nat) (cur : List Nat) :
    closureIter nbrs 0 cur = cur := rfl

theorem closureIter_succ (nbrs : Nat → List Nat) (n : Nat) (cur : List Nat) :
    closureIter nbrs (n + 1) cur = closureIter nbrs n (addNbrs nbrs cur) := rfl

theorem mem_insertNew {y x : Nat} {l : List Nat} :
    y ∈ insertNew x l ↔ y = x ∨ y ∈ l := by
  unfold insertNew
  by_cases h : x ∈ l
  · simp only [if_pos h]
    constructor
    · exact Or.inr
    · rintro (rfl | hy)
      · exact h
      · exact hy
  · simp [if_neg h, List.mem_cons]

theorem nodup_insertNew {x : Nat} {l : List Nat} (h : l.Nodup) :
    (insertNew x l).Nodup := by
  unfold insertNew
  by_cases hx : x ∈ l
  · simpa [if_pos hx] using h
  · simp only [if_neg hx, List.nodup_cons]
    exact ⟨hx, h⟩

theorem addList_cons (a : Nat) (as l : List Nat) :
    addList (a :: as) l = addList as (insertNew a l) := rfl

theorem mem_addList {y : Nat} : ∀ {xs l : List Nat},
    y ∈ addList xs l ↔ y ∈ xs ∨ y ∈ l := by
  intro xs
  induction xs with
  | nil => intro l; simp [addList]
  | cons a as ih =>
    intro l
    rw [addList_cons, ih, mem_insertNew]
    simp [List.mem_cons]
    tauto

theorem nodup_addList : ∀ {xs l : List Nat}, l.Nodup → (addList xs l).Nodup := by
  intro xs
  induction xs with
  | nil => intro l h; exact h
  | cons a as ih => intro l h; rw [addList_cons]; exact ih (nodup_insertNew h)

theorem insertNew_eq_append (x : Nat) (l : List Nat) :
    ∃ l2, insertNew x l = l2 ++ l := by
  unfold insertNew
  by_cases h : x ∈ l
  · exact ⟨[], by simp [if_pos h]⟩
  · exact ⟨[x], by simp [if_neg h]⟩

theorem addList_eq_append : ∀ (xs l : List Nat), ∃ l2, addList xs l = l2 ++ l := by
  intro xs
  induction xs with
  | nil => intro l; exact ⟨[], rfl⟩
  | cons a as ih =>
    intro l
    obtain ⟨l1, h1⟩ := insertNew_eq_append a l
    obtain ⟨l2, h2⟩ := ih (insertNew a l)
    refine ⟨l2 ++ l1, ?_⟩
    rw [addList_cons, h2, h1, List.append_assoc]

theorem mem_foldl_addList {nbrs : Nat → List Nat} {y : Nat} :
    ∀ (xs acc : List Nat),
      y ∈ xs.foldl (fun acc x => addList (nbrs x) acc) acc ↔
        y ∈ acc ∨ ∃ x ∈ xs, y ∈ nbrs x := by
  intro xs
  induction xs with
  | nil => intro acc; simp
  | cons a as ih =>
    intro acc
    rw [List.foldl_cons, ih, mem_addList]
    simp only [List.mem_cons]
    constructor
    · rintro (h | ⟨x, hx, hy⟩)
      · rcases h with h | h
        · exact Or.inr ⟨a, Or.inl rfl, h⟩
        · exact Or.inl h
      · exact Or.inr ⟨x, Or.inr hx, hy⟩
    · rintro (h | ⟨x, hx | hx, hy⟩)
      · exact Or.inl (Or.inr h)
      · subst hx; exact Or.inl (Or.inl hy)
      · exact Or.inr ⟨x, hx, hy⟩

theorem mem_addNbrs {nbrs : Nat → List Nat} {cur : List Nat} {y : Nat} :
    y ∈ addNbrs nbrs cur ↔ y ∈ cur ∨ ∃ x ∈ cur, y ∈ nbrs x :=
  mem_foldl_addList cur cur

theorem nodup_foldl_addList {nbrs : Nat → List Nat} :
    ∀ (xs acc : List Nat), acc.Nodup →
      (xs.foldl (fun acc x => addList (nbrs x) acc) acc).Nodup := by
  intro xs
  induction xs with
  | nil => intro acc h; exact h
  | cons a as ih => intro acc h; rw [List.foldl_cons]; exact ih _ (nodup_addList h)

theorem nodup_addNbrs {nbrs : Nat → List Nat} {cur : List Nat} (h : cur.Nodup) :
    (addNbrs nbrs cur).Nodup :=
  nodup_foldl_addList cur cur h

theorem foldl_addList_eq_append {nbrs : Nat → List Nat} :
    ∀ (xs acc : List Nat),
      ∃ l2, xs.foldl (fun acc x => addList (nbrs x) acc) acc = l2 ++ acc := by
  intro xs
  induction xs with
  | nil => intro acc; exact ⟨[], rfl⟩
  | cons a as ih =>
    intro acc
    obtain ⟨l1, h1⟩ := addList_eq_append (nbrs a) acc
    obtain ⟨l2, h2⟩ := ih (addList (nbrs a) acc)
    refine ⟨l2 ++ l1, ?_⟩
    rw [List.foldl_cons, h2, h1, List.append_assoc]

theorem addNbrs_eq_append (nbrs : Nat → List Nat) (cur : List Nat) :
    ∃ l2, addNbrs nbrs cur = l2 ++ cur :=
  foldl_addList_eq_append cur cur

theorem length_lt_of_addNbrs_ne {nbrs : Nat → List Nat} {cur : List Nat}
    (h : addNbrs nbrs cur ≠ cur) :
    cur.length + 1 ≤ (addNbrs nbrs cur).length := by
  obtain ⟨l2, hl⟩ := addNbrs_eq_append nbrs cur
  rcases l2 with _ | ⟨a, t⟩
  · exact absurd (by simpa using hl) h
  · rw [hl]
    simp [List.length_append]

theorem addNbrs_subset_bound {nbrs : Nat → List Nat} {bound cur : List Nat}
    (hc : ∀ y ∈ cur, y ∈ bound) (hn : ∀ x y, y ∈ nbrs x → y ∈ bound) :
    ∀ y ∈ addNbrs nbrs cur, y ∈ bound := by
  intro y hy
  rcases mem_addNbrs.1 hy with h | ⟨x, _, h⟩
  · exact hc y h
  · exact hn x y h

theorem closureIter_of_stable {nbrs : Nat → List Nat} {cur : List Nat}
    (h : addNbrs nbrs cur = cur) : ∀ n, closureIter nbrs n cur = cur := by
  intro n
  induction n with
  | zero => rfl
  | succ n ih => rw [closureIter_succ, h]; exact ih

theorem closure_stable {nbrs : Nat → List Nat} {bound : List Nat}
    (hn : ∀ x y, y ∈ nbrs x → y ∈ bound) :
    ∀ (n : Nat) (cur : List Nat), cur.Nodup → (∀ y ∈ cur, y ∈ bound) →
      bound.length + 1 ≤ n + cur.length →
      addNbrs nbrs (closureIter nbrs n cur) = closureIter nbrs n cur := by
  intro n
  induction n with
  | zero =>
    intro cur hd hsub hlen
    exfalso
    have hle : cur.length ≤ bound.length := (hd.subperm hsub).length_le
    omega
  | succ n ih =>
    intro cur hd hsub hlen
    by_cases h : addNbrs nbrs cur = cur
    · rw [closureIter_succ, h, closureIter_of_stable h]
      exact h
    · rw [closureIter_succ]
      exact ih (addNbrs nbrs cur) (nodup_addNbrs hd) (addNbrs_subset_bound hsub hn)
        (by have := length_lt_of_addNbrs_ne h; omega)

theorem nbrs_subset_of_stable {nbrs : Nat → List Nat} {S : List Nat}
    (h : addNbrs nbrs S = S) : ∀ x ∈ S, ∀ y ∈ nbrs x, y ∈ S := by
  intro x hx y hy
  have hm : y ∈ addNbrs nbrs S := mem_addNbrs.2 (Or.inr ⟨x, hx, hy⟩)
  rwa [h] at hm

theorem subset_closureIter {nbrs : Nat → List Nat} :
    ∀ (n : Nat) (cur : List Nat), ∀ y ∈ cur, y ∈ closureIter nbrs n cur := by
  intro n
  induction n with
  | zero => intro cur y hy; exact hy
  | succ n ih =>
    intro cur y hy
    rw [closureIter_succ]
    exact ih _ y (mem_addNbrs.2 (Or.inl hy))

theorem closureIter_sound {nbrs : Nat → List Nat} :
    ∀ (n : Nat) (cur : List Nat) (y : Nat), y ∈ closureIter nbrs n cur →
      ∃ x ∈ cur, Relation.ReflTransGen (StepRel nbrs) x y := by
  intro n
  induction n with
  | zero => intro cur y hy; exact ⟨y, hy, Relation.ReflTransGen.refl⟩
  | succ n ih =>
    intro cur y hy
    rw [closureIter_succ] at hy
    obtain ⟨x, hx, hr⟩ := ih _ y hy
    rcases mem_addNbrs.1 hx with h | ⟨z, hz, h⟩
    · exact ⟨x, h, hr⟩
    · exact ⟨z, hz, Relation.ReflTransGen.head h hr⟩

theorem rtg_mem_of_closed {nbrs : Nat → List Nat} {S : List Nat}
    (hS : addNbrs nbrs S = S) {x y : Nat}
    (h : Relation.ReflTransGen (StepRel nbrs) x y) (hx : x ∈ S) : y ∈ S := by
  induction h with
  | refl => exact hx
  | tail _ h2 ih => exact nbrs_subset_of_stable hS _ ih _ h2

theorem mem_closureIter_iff {nbrs : Nat → List Nat} {bound : List Nat}
    (hn : ∀ x y, y ∈ nbrs x → y ∈ bound)
    {cur : List Nat} (hd : cur.Nodup) (hsub : ∀ y ∈ cur, y ∈ bound)
    {n : Nat} (hfuel : bound.length + 1 ≤ n + cur.length) (y : Nat) :
    y ∈ closureIter nbrs n cur ↔
      ∃ x ∈ cur, Relation.ReflTransGen (StepRel nbrs) x y := by
  constructor
  · exact closureIter_sound n cur y
  · rintro ⟨x, hx, hr⟩
    exact rtg_mem_of_closed (closure_stable hn n cur hd hsub hfuel) hr
      (subset_closureIter n cur x hx)

/-! ### Lemmas instantiating the closure engine on the membership graph -/

theorem rtg_iff_of_equiv {r s : Nat → Nat → Prop} (h : ∀ a b, r a b ↔ s a b) {a b : Nat} :
    Relation.ReflTransGen r a b ↔ Relation.ReflTransGen s a b :=
  ⟨Relation.ReflTransGen.mono (fun a b hab => (h a b).1 hab),
   Relation.ReflTransGen.mono (fun a b hab => (h a b).2 hab)⟩

theorem mem_nbrsDown {es : List MemberEdge} {x y : Nat} :
    y ∈ nbrsDown es x ↔ EdgeStepDown es x y := by
  unfold nbrsDown EdgeStepDown
  simp only [List.mem_map, List.mem_filter, decide_eq_true_eq]
  constructor
  · rintro ⟨e, ⟨he, hg⟩, rfl⟩
    exact ⟨e, he, hg, rfl⟩
  · rintro ⟨e, he, hg, hm⟩
    exact ⟨e, ⟨he, hg⟩, hm⟩

theorem mem_nbrsInherit {es : List MemberEdge} {x y : Nat} :
    y ∈ nbrsInherit es x ↔ InheritStep es x y := by
  unfold nbrsInherit InheritStep
  simp only [List.mem_map, List.mem_filter, Bool.and_eq_true, decide_eq_true_eq]
  constructor
  · rintro ⟨e, ⟨he, hm, hi⟩, rfl⟩
    exact ⟨e, he, hm, rfl, hi⟩
  · rintro ⟨e, he, hm, hg, hi⟩
    exact ⟨e, ⟨he, hm, hi⟩, hg⟩

theorem mem_nbrsSetOpt {es : List MemberEdge} {x y : Nat} :
    y ∈ nbrsSetOpt es x ↔ SetOptStep es x y := by
  unfold nbrsSetOpt SetOptStep
  simp only [List.mem_map, List.mem_filter, Bool.and_eq_true, decide_eq_true_eq]
  constructor
  · rintro ⟨e, ⟨he, hm, hi⟩, rfl⟩
    exact ⟨e, he, hm, rfl, hi⟩
  · rintro ⟨e, he, hm, hg, hi⟩
    exact ⟨e, ⟨he, hm, hi⟩, hg⟩

theorem mem_nbrsDep {gs : List PrivGrant} {i j : Nat} :
    j ∈ nbrsDep gs i ↔ DepStep gs i j := by
  unfold nbrsDep DepStep
  simp only [List.mem_map, List.mem_filter, decide_eq_true_eq]
  constructor
  · rintro ⟨g, ⟨hg, hp⟩, rfl⟩
    exact ⟨g, hg, hp, rfl⟩
  · rintro ⟨g, hg, hp, hj⟩
    exact ⟨g, ⟨hg, hp⟩, hj⟩

theorem nbrsDown_subset {es : List MemberEdge} {x y : Nat} (h : y ∈ nbrsDown es x) :
    y ∈ es.map (fun e => e.member) := by
  obtain ⟨e, he, hg, hm⟩ := mem_nbrsDown.1 h
  exact List.mem_map.2 ⟨e, he, hm⟩

theorem nbrsInherit_subset {es : List MemberEdge} {x y : Nat} (h : y ∈ nbrsInherit es x) :
    y ∈ es.map (fun e => e.granted) := by
  obtain ⟨e, he, _, hg, _⟩ := mem_nbrsInherit.1 h
  exact List.mem_map.2 ⟨e, he, hg⟩

theorem nbrsSetOpt_subset {es : List MemberEdge} {x y : Nat} (h : y ∈ nbrsSetOpt es x) :
    y ∈ es.map (fun e => e.granted) := by
  obtain ⟨e, he, _, hg, _⟩ := mem_nbrsSetOpt.1 h
  exact List.mem_map.2 ⟨e, he, hg⟩

theorem nbrsDep_subset {gs : List PrivGrant} {i j : Nat} (h : j ∈ nbrsDep gs i) :
    j ∈ gs.map (fun g => g.gid) := by
  obtain ⟨g, hg, _, hj⟩ := mem_nbrsDep.1 h
  exact List.mem_map.2 ⟨g, hg, hj⟩

theorem mem_inheritedClosure {st : AuthState} {root : Nat} {sc : Scope} {r : Nat} :
    r ∈ inheritedClosure st root sc ↔
      Relation.ReflTransGen (InheritStep (visibleEdges st sc)) root r := by
  unfold inheritedClosure
  have h := @mem_closureIter_iff
    (nbrsInherit (visibleEdges st sc))
    ((root :: (visibleEdges st sc).map (fun e => e.granted)).dedup)
    (fun x y hy => List.mem_dedup.2 (List.mem_cons_of_mem root (nbrsInherit_subset hy)))
    [root] (by simp)
    (fun y hy => by
      rw [List.mem_singleton.1 hy]
      exact List.mem_dedup.2 (List.mem_cons_self root _))
    ((visibleEdges st sc).length + 1)
    (by
      have hle := (List.dedup_sublist
        (root :: (visibleEdges st sc).map (fun e => e.granted))).length_le
      simp only [List.length_cons, List.length_map] at hle
      simp only [List.length_cons]
      omega) r
  rw [h]
  constructor
  · rintro ⟨x, hx, hr⟩
    rw [List.mem_singleton.1 hx] at hr
    exact (rtg_iff_of_equiv (fun a b => mem_nbrsInherit)).1 hr
  · intro hr
    exact ⟨root, List.mem_singleton_self root,
      (rtg_iff_of_equiv (fun a b => mem_nbrsInherit)).2 hr⟩

theorem mem_setEligibleClosure {st : AuthState} {root : Nat} {sc : Scope} {r : Nat} :
    r ∈ setEligibleClosure st root sc ↔
      Relation.ReflTransGen (SetOptStep (visibleEdges st sc)) root r := by
  unfold setEligibleClosure
  have h := @mem_closureIter_iff
    (nbrsSetOpt (visibleEdges st sc))
    ((root :: (visibleEdges st sc).map (fun e => e.granted)).dedup)
    (fun x y hy => List.mem_dedup.2 (List.mem_cons_of_mem root (nbrsSetOpt_subset hy)))
    [root] (by simp)
    (fun y hy => by
      rw [List.mem_singleton.1 hy]
      exact List.mem_dedup.2 (List.mem_cons_self root _))
    ((visibleEdges st sc).length + 1)
    (by
      have hle := (List.dedup_sublist
        (root :: (visibleEdges st sc).map (fun e => e.granted))).length_le
      simp only [List.length_cons, List.length_map] at hle
      simp only [List.length_cons]
      omega) r
  rw [h]
  constructor
  · rintro ⟨x, hx, hr⟩
    rw [List.mem_singleton.1 hx] at hr
    exact (rtg_iff_of_equiv (fun a b => mem_nbrsSetOpt)).1 hr
  · intro hr
    exact ⟨root, List.mem_singleton_self root,
      (rtg_iff_of_equiv (fun a b => mem_nbrsSetOpt)).2 hr⟩

theorem hasPathDown_iff {es : List MemberEdge} {x y : Nat} :
    hasPathDown es x y = true ↔ Relation.TransGen (EdgeStepDown es) x y := by
  unfold hasPathDown
  rw [decide_eq_true_eq]
  have h := @mem_closureIter_iff
    (nbrsDown es)
    ((es.map (fun e => e.member)).dedup)
    (fun a b hb => List.mem_dedup.2 (nbrsDown_subset hb))
    ((nbrsDown es x).dedup) (List.nodup_dedup _)
    (fun z hz => List.mem_dedup.2 (nbrsDown_subset (List.mem_dedup.1 hz)))
    (es.length + 1)
    (by
      have hle := (List.dedup_sublist (es.map (fun e => e.member))).length_le
      simp only [List.length_map] at hle
      omega) y
  rw [h, Relation.TransGen.head'_iff]
  constructor
  · rintro ⟨z, hz, hr⟩
    exact ⟨z, mem_nbrsDown.1 (List.mem_dedup.1 hz),
      (rtg_iff_of_equiv (fun a b => mem_nbrsDown)).1 hr⟩
  · rintro ⟨z, hz, hr⟩
    exact ⟨z, List.mem_dedup.2 (mem_nbrsDown.2 hz),
      (rtg_iff_of_equiv (fun a b => mem_nbrsDown)).2 hr⟩

theorem mem_revokeRemovalSet {st : AuthState} {obj kind : Nat} {gt : Grantee}
    {revoker : Nat} {i : Nat} :
    i ∈ revokeRemovalSet st obj kind gt revoker ↔
      ∃ j ∈ rootGrantIds st obj kind gt revoker,
        Relation.ReflTransGen (DepStep st.grants) j i := by
  unfold revokeRemovalSet
  have hroot : ∀ j ∈ rootGrantIds st obj kind gt revoker, j ∈ st.grants.map (fun g => g.gid) := by
    intro j hj
    unfold rootGrantIds at hj
    obtain ⟨g, hg, rfl⟩ := List.mem_map.1 (List.mem_dedup.1 hj)
    exact List.mem_map.2 ⟨g, (List.mem_filter.1 hg).1, rfl⟩
  have h := @mem_closureIter_iff
    (nbrsDep st.grants)
    ((st.grants.map (fun g => g.gid)).dedup)
    (fun a b hb => List.mem_dedup.2 (nbrsDep_subset hb))
    (rootGrantIds st obj kind gt revoker)
    (by unfold rootGrantIds; exact List.nodup_dedup _)
    (fun j hj => List.mem_dedup.2 (hroot j hj))
    (st.grants.length + 1)
    (by
      have hle := (List.dedup_sublist (st.grants.map (fun g => g.gid))).length_le
      simp only [List.length_map] at hle
      omega) i
  rw [h]
  constructor
  · rintro ⟨j, hj, hr⟩
    exact ⟨j, hj, (rtg_iff_of_equiv (fun a b => mem_nbrsDep)).1 hr⟩
  · rintro ⟨j, hj, hr⟩
    exact ⟨j, hj, (rtg_iff_of_equiv (fun a b => mem_nbrsDep)).2 hr⟩

theorem mem_nbrsDepE {es : List MemberEdge} {i j : Nat} :
    j ∈ nbrsDepE es i ↔ DepStepE es i j := by
  unfold nbrsDepE DepStepE
  simp only [List.mem_map, List.mem_filter, decide_eq_true_eq]
  constructor
  · rintro ⟨e, ⟨he, hp⟩, rfl⟩
    exact ⟨e, he, hp, rfl⟩
  · rintro ⟨e, he, hp, hj⟩
    exact ⟨e, ⟨he, hp⟩, hj⟩

theorem nbrsDepE_subset {es : List MemberEdge} {i j : Nat} (h : j ∈ nbrsDepE es i) :
    j ∈ es.map (fun e => e.eid) := by
  obtain ⟨e, he, _, hj⟩ := mem_nbrsDepE.1 h
  exact List.mem_map.2 ⟨e, he, hj⟩

theorem mem_edgeRemovalSet {st : AuthState} {g m : Nat} {sc : Scope} {grOpt : Option Nat}
    {i : Nat} :
    i ∈ edgeRemovalSet st g m sc grOpt ↔
      ∃ j ∈ edgeRootIds st g m sc grOpt,
        Relation.ReflTransGen (DepStepE st.edges) j i := by
  unfold edgeRemovalSet
  have hroot : ∀ j ∈ edgeRootIds st g m sc grOpt, j ∈ st.edges.map (fun e => e.eid) := by
    intro j hj
    unfold edgeRootIds at hj
    obtain ⟨e, he, rfl⟩ := List.mem_map.1 (List.mem_dedup.1 hj)
    unfold removalTargets at he
    exact List.mem_map.2 ⟨e, List.mem_of_mem_filter he, rfl⟩
  have h := @mem_closureIter_iff
    (nbrsDepE st.edges)
    ((st.edges.map (fun e => e.eid)).dedup)
    (fun a b hb => List.mem_dedup.2 (nbrsDepE_subset hb))
    (edgeRootIds st g m sc grOpt)
    (by unfold edgeRootIds; exact List.nodup_dedup _)
    (fun j hj => List.mem_dedup.2 (hroot j hj))
    (st.edges.length + 1)
    (by
      have hle := (List.dedup_sublist (st.edges.map (fun e => e.eid))).length_le
      simp only [List.length_map] at hle
      omega) i
  rw [h]
  constructor
  · rintro ⟨j, hj, hr⟩
    exact ⟨j, hj, (rtg_iff_of_equiv (fun a b => mem_nbrsDepE)).1 hr⟩
  · rintro ⟨j, hj, hr⟩
    exact ⟨j, hj, (rtg_iff_of_equiv (fun a b => mem_nbrsDepE)).2 hr⟩

/-! ### Lemmas for the size functions of dbsize.c -/

theorem half_rounded_eq_numeric (x : Int) : half_rounded x = numeric_half_rounded x := by
  unfold half_rounded numeric_half_rounded
  by_cases h : x < 0
  · rw [if_pos h, if_neg (by omega : ¬ (0 : Int) ≤ x)]
    have hx : x + (-1 : Int) = x - 1 := by ring
    rw [hx]
  · rw [if_neg h, if_pos (by omega : (0 : Int) ≤ x)]

theorem size_guard_iff (x : Int) (m : Nat) :
    x.natAbs < m ↔ numeric_absolute x < (m : Int) := by
  unfold numeric_absolute
  rw [Int.abs_eq_natAbs]
  exact_mod_cast Iff.rfl

theorem pgSizePrettyLoop_eq_numeric :
    ∀ (units : List SizePrettyUnit) (size : Int),
      pgSizePrettyLoop size units = pgSizePrettyNumericLoop size units := by
  intro units
  induction units with
  | nil => intro size; rfl
  | cons u rest ih =>
    intro size
    cases rest with
    | nil =>
      simp only [pgSizePrettyLoop, pgSizePrettyNumericLoop]
      rw [half_rounded_eq_numeric]
    | cons u2 rest2 =>
      simp only [pgSizePrettyLoop, pgSizePrettyNumericLoop]
      by_cases h : size.natAbs < u.limit
      · rw [if_pos h, if_pos ((size_guard_iff size u.limit).1 h), half_rounded_eq_numeric]
      · rw [if_neg h, if_neg (fun hc => h ((size_guard_iff size u.limit).2 hc))]
        unfold numeric_truncated_divide
        exact ih _

/-! ### Lemmas for the size functions: NULL results -/

theorem pg_database_size_oid_null_iff (env : SizeEnv) (aclOk : Bool) (dbOid : Nat) :
    pg_database_size_oid env aclOk dbOid = some SqlValue.null ↔
      calculate_database_size env aclOk dbOid = some 0 := by
  unfold pg_database_size_oid
  rcases hc : calculate_database_size env aclOk dbOid with _ | t
  · simp
  · by_cases ht : t = 0
    · subst ht; simp
    · simp only [Option.some_inj]
      constructor
      · intro hv
        rw [if_neg ht] at hv
        exact absurd hv (by intro hx; cases hx)
      · intro hv
        exact absurd hv (by intro hx; exact ht (by exact_mod_cast hx))

theorem db_dir_size_absent {env : SizeEnv} {path : String}
    (h : lookupDir env path = none) : db_dir_size env path = 0 := by
  unfold db_dir_size
  rw [h]

theorem db_dir_size_zero_entries {env : SizeEnv} {path : String} {es : List FsEntry}
    (h : lookupDir env path = some es) (hz : ∀ en ∈ es, en.size = 0) :
    db_dir_size env path = 0 := by
  unfold db_dir_size
  rw [h]
  apply List.sum_eq_zero
  intro x hx
  obtain ⟨en, hen, rfl⟩ := List.mem_map.1 hx
  rw [hz en (List.mem_filter.1 hen).1]
  rfl

/-! ### Lemmas for the authorization model -/

theorem hasGrantOn_iff {st : AuthState} {obj kind : Nat} {gt : Grantee} :
    hasGrantOn st obj kind gt = true ↔ GrantedTo st obj kind gt := by
  unfold hasGrantOn GrantedTo
  rw [List.any_eq_true]
  constructor
  · rintro ⟨g, hg, hp⟩
    exact ⟨g, hg, of_decide_eq_true hp⟩
  · rintro ⟨g, hg, hp⟩
    exact ⟨g, hg, decide_eq_true hp⟩

theorem edgeKey_update (e : MemberEdge) (ad inh so : Bool) :
    edgeKey { e with admin := ad, inherit := inh, setOpt := so } = edgeKey e := rfl

theorem keyUnique_upsertEdge {es : List MemberEdge} {g m gr : Nat} {ad inh so : Bool}
    {sc : Scope} {nid : Nat} {parent : Option Nat} (h : KeyUnique es) :
    KeyUnique (upsertEdge es g m gr ad inh so sc nid parent) := by
  unfold upsertEdge
  by_cases hex : es.any (fun e => edgeKeyMatches e g m gr sc) = true
  · rw [if_pos hex]
    unfold KeyUnique at h ⊢
    rw [List.map_map]
    have hcong : es.map (edgeKey ∘ fun e =>
        if edgeKeyMatches e g m gr sc then { e with admin := ad, inherit := inh, setOpt := so }
        else e) = es.map edgeKey := by
      apply List.map_congr_left
      intro e _
      by_cases hk : edgeKeyMatches e g m gr sc = true
      · simp only [Function.comp_apply, if_pos hk, edgeKey_update]
      · simp only [Function.comp_apply, if_neg hk]
    rw [hcong]
    exact h
  · rw [if_neg hex]
    unfold KeyUnique at h ⊢
    rw [List.map_cons, List.nodup_cons]
    refine ⟨?_, h⟩
    intro hmem
    obtain ⟨e, he, hk⟩ := List.mem_map.1 hmem
    apply hex
    rw [List.any_eq_true]
    refine ⟨e, he, ?_⟩
    unfold edgeKey at hk
    simp only [Prod.mk.injEq] at hk
    unfold edgeKeyMatches
    exact decide_eq_true ⟨hk.1, hk.2.1, hk.2.2.1, hk.2.2.2⟩

theorem keyUnique_filter {es : List MemberEdge} (p : MemberEdge → Bool) (h : KeyUnique es) :
    KeyUnique (es.filter p) := by
  unfold KeyUnique at h ⊢
  exact h.sublist (List.Sublist.map edgeKey (List.filter_sublist es))

theorem applyGrantKinds_edges (st : AuthState) (grantor obj : Nat) (kinds : List Nat)
    (gt : Grantee) (wopt : Bool) (sc : Scope) :
    (applyGrantKinds st grantor obj kinds gt wopt sc).edges = st.edges := by
  unfold applyGrantKinds
  have hgen : ∀ (ks : List Nat) (s : AuthState),
      (ks.foldl (fun s k =>
        { s with
          grants := upsertGrant s.grants obj k gt grantor wopt s.nextId
            (if isSuperuser st grantor || isOwner st grantor obj then none
             else findAuthorizingGrant st grantor obj k sc),
          nextId := s.nextId + 1 }) s).edges = s.edges := by
    intro ks
    induction ks with
    | nil => intro s; rfl
    | cons k ks ih =>
      intro s
      rw [List.foldl_cons]
      exact ih _
  exact hgen kinds st

theorem grant_ok_edges {st : AuthState} {obj : Nat} {kinds : List Nat} {gt : Grantee}
    {grantor : Nat} {wopt : Bool} {sc : Scope} {p : AuthState × List Diag}
    (h : grant st obj kinds gt grantor wopt sc = .ok p) : p.fst.edges = st.edges := by
  unfold grant at h
  split at h
  · split at h
    · cases h
    · rw [(Except.ok.inj h).symm]
      exact applyGrantKinds_edges st grantor obj kinds gt wopt sc
  · split at h
    · cases h
    · split at h
      · cases h
      · rw [(Except.ok.inj h).symm]
        exact applyGrantKinds_edges st grantor obj _ gt wopt sc

theorem revoke_ok_grants_only {st : AuthState} {obj kind : Nat} {gt : Grantee}
    {revoker : Nat} {oo c : Bool} {st2 : AuthState}
    (h : revoke st obj kind gt revoker oo c = .ok st2) : st2.edges = st.edges := by
  simp only [revoke] at h
  split at h
  · cases h
  · split at h
    · rw [(Except.ok.inj h).symm]
    · rw [(Except.ok.inj h).symm]

theorem removeEdge_ok_edges {st : AuthState} {actor g m : Nat} {sc : Scope}
    {grOpt : Option Nat} {c : Bool} {st2 : AuthState}
    (h : removeEdge st actor g m sc grOpt c = .ok st2) :
    ∃ p, st2.edges = st.edges.filter p := by
  simp only [removeEdge] at h
  split at h
  · cases h
  · split at h
    · cases h
    · rw [(Except.ok.inj h).symm]
      exact ⟨_, rfl⟩

theorem addEdge_ok_inv {st : AuthState} {g m gr : Nat} {ad inh so : Bool} {sc : Scope}
    {parent : Option Nat} {st2 : AuthState}
    (h : addEdge st g m gr ad inh so sc parent = .ok st2) :
    st2.edges = upsertEdge st.edges g m gr ad inh so sc st.nextId parent := by
  unfold addEdge at h
  split at h
  · cases h
  · split at h
    · cases h
    · rw [(Except.ok.inj h).symm]

theorem grantMembership_ok_inv {st : AuthState} {ctx : SessionCtx} {actor g m : Nat}
    {ad inh so : Bool} {sc : Scope} {st2 : AuthState}
    (h : grantMembership st ctx actor g m ad inh so sc = .ok st2) :
    ∃ parent, st2.edges = upsertEdge st.edges g m actor ad inh so sc st.nextId parent := by
  unfold grantMembership at h
  split at h
  · cases h
  · exact ⟨_, addEdge_ok_inv h⟩

theorem createRole_ok_edges {st : AuthState} {creator rid : Nat} {ns ncr : Bool}
    {st2 : AuthState} (h : createRole st creator rid ns ncr = .ok st2) :
    st2.edges = st.edges ∨
      ∃ nid, st2.edges =
        upsertEdge st.edges rid creator bootstrapSentinel true false false Scope.Global nid none := by
  unfold createRole at h
  split at h
  · cases h
  · split at h
    · cases h
    · split at h
      · cases h
      · split at h
        · left
          rw [(Except.ok.inj h).symm]
        · right
          refine ⟨st.nextId, ?_⟩
          rw [(Except.ok.inj h).symm]

theorem keyUnique_applyCmd (st : AuthState) (c : Cmd) (h : KeyUnique st.edges) :
    KeyUnique (applyCmd st c).edges := by
  cases c with
  | createR creator rid ns ncr =>
    unfold applyCmd
    rcases hr : runCmd st (Cmd.createR creator rid ns ncr) with e | st2
    · exact h
    · show KeyUnique st2.edges
      simp only [runCmd] at hr
      rcases createRole_ok_edges hr with he | ⟨nid, he⟩
      · rw [he]; exact h
      · rw [he]; exact keyUnique_upsertEdge h
  | grantM ctx a g m ad inh so sc =>
    unfold applyCmd
    rcases hr : runCmd st (Cmd.grantM ctx a g m ad inh so sc) with e | st2
    · exact h
    · show KeyUnique st2.edges
      simp only [runCmd] at hr
      obtain ⟨parent, he⟩ := grantMembership_ok_inv hr
      rw [he]
      exact keyUnique_upsertEdge h
  | revokeM a g m sc gro cs =>
    unfold applyCmd
    rcases hr : runCmd st (Cmd.revokeM a g m sc gro cs) with e | st2
    · exact h
    · show KeyUnique st2.edges
      simp only [runCmd] at hr
      obtain ⟨p, he⟩ := removeEdge_ok_edges hr
      rw [he]
      exact keyUnique_filter p h
  | grantP o ks gt gr w sc =>
    unfold applyCmd
    rcases hr : runCmd st (Cmd.grantP o ks gt gr w sc) with e | st2
    · exact h
    · show KeyUnique st2.edges
      simp only [runCmd] at hr
      rcases hg : grant st o ks gt gr w sc with e2 | p
      · rw [hg] at hr; cases hr
      · rw [hg] at hr
        have hfst : st2 = p.fst := (Except.ok.inj hr).symm
        rw [hfst, grant_ok_edges hg]
        exact h
  | revokeP o k gt rv oo cs =>
    unfold applyCmd
    rcases hr : runCmd st (Cmd.revokeP o k gt rv oo cs) with e | st2
    · exact h
    · show KeyUnique st2.edges
      simp only [runCmd] at hr
      rw [revoke_ok_grants_only hr]
      exact h

theorem keyUnique_reachable : ∀ st, ReachableState st → KeyUnique st.edges := by
  intro st h
  induction h with
  | init => unfold KeyUnique initState; simp
  | step st2 c _ ih => exact keyUnique_applyCmd st2 c ih

theorem runCmd_error_applyCmd {st : AuthState} {c : Cmd} {e : AuthErr}
    (h : runCmd st c = .error e) : applyCmd st c = st := by
  unfold applyCmd
  rw [h]

theorem revoke_cascade_ok (st : AuthState) (obj kind : Nat) (gt : Grantee) (revoker : Nat) :
    revoke st obj kind gt revoker false true =
      .ok { st with grants :=
        (st.grants.filter
          (fun g => decide (¬ g.gid ∈ revokeRemovalSet st obj kind gt revoker))) } := by
  simp only [revoke, Bool.not_true, Bool.and_false, Bool.false_eq_true, if_false]

theorem removeEdge_cascade_ok (st : AuthState) (actor g m : Nat) (sc : Scope)
    (grOpt : Option Nat)
    (hperm : (isSuperuser st actor ||
      (removalTargets st g m sc grOpt).all (fun e => decide (e.grantor = actor))) = true) :
    removeEdge st actor g m sc grOpt true =
      .ok { st with edges :=
        (st.edges.filter
          (fun e => decide (¬ e.eid ∈ edgeRemovalSet st g m sc grOpt))) } := by
  unfold edgeRemovalSet edgeRootIds
  simp only [removeEdge, hperm, Bool.not_true, Bool.and_false, Bool.false_eq_true,
    if_false, ite_false]

/-! ### Claim theorems -/

/-- C9: for every int64 value s, the two formatting paths agree:
`pg_size_pretty s` produces the same text as `pg_size_pretty_numeric` applied
to the numeric conversion of s — both select the same unit by comparing the
absolute value against the same limits in `size_pretty_units`, perform the
same half-rounding away from zero at each rounding unit, divide by the same
power-of-two scale between units, and print the same numeral followed by the
same unit name. -/
theorem pg_size_pretty_agrees_numeric (s : Int)
    (_h1 : -(2 ^ 63) ≤ s) (_h2 : s < 2 ^ 63) :
    pg_size_pretty s = pg_size_pretty_numeric s :=
  pgSizePrettyLoop_eq_numeric size_pretty_units s

/-- Witness for C9 at a concrete in-range negative value. -/
theorem pg_size_pretty_agrees_numeric_witness :
    (-(2 ^ 63) ≤ (-1500000 : Int) ∧ (-1500000 : Int) < 2 ^ 63) ∧
      pg_size_pretty (-1500000) = pg_size_pretty_numeric (-1500000) :=
  ⟨⟨by decide, by decide⟩,
   pg_size_pretty_agrees_numeric (-1500000) (by decide) (by decide)⟩

/-- C10: `pg_database_size_oid` and `pg_database_size_name` return SQL NULL
exactly when the computed total size is 0 bytes; `db_dir_size` returns 0 both
when a directory does not exist and when it exists but its contents total 0
bytes, so an existing database whose files sum to zero is reported as NULL,
indistinguishable at this interface from a database whose directories are
absent; by contrast the tablespace functions use the -1 sentinel for a
missing directory and report an existing empty tablespace as 0, not NULL. -/
theorem pg_database_size_null_spec :
    (∀ (env : SizeEnv) (aclOk : Bool) (dbOid : Nat),
        pg_database_size_oid env aclOk dbOid = some SqlValue.null ↔
          calculate_database_size env aclOk dbOid = some 0) ∧
    (∀ (env : SizeEnv) (aclOk : Bool) (dbName : String),
        pg_database_size_name env aclOk dbName = some SqlValue.null ↔
          ∃ dbOid, get_database_oid env dbName = some dbOid ∧
            calculate_database_size env aclOk dbOid = some 0) ∧
    (∀ (env : SizeEnv) (path : String),
        lookupDir env path = none → db_dir_size env path = 0) ∧
    (∀ (env : SizeEnv) (path : String) (es : List FsEntry),
        lookupDir env path = some es → (∀ en ∈ es, en.size = 0) →
        db_dir_size env path = 0) ∧
    (pg_database_size_oid
        { dirs := [("base/7", [{ name := "16384", size := 0, isDir := false }]),
                   ("pg_tblspc", [])], dbNames := [] } true 7 = some SqlValue.null ∧
     pg_database_size_oid
        { dirs := [("pg_tblspc", [])], dbNames := [] } true 7 = some SqlValue.null) ∧
    (∀ (env : SizeEnv) (tblspcOid : Nat),
        lookupDir env (tablespacePath tblspcOid) = none →
        calculate_tablespace_size env true tblspcOid = some (-1) ∧
        pg_tablespace_size_oid env true tblspcOid = some SqlValue.null) ∧
    (∀ (env : SizeEnv) (tblspcOid : Nat),
        lookupDir env (tablespacePath tblspcOid) = some [] →
        pg_tablespace_size_oid env true tblspcOid = some (SqlValue.val 0)) := by
  refine ⟨pg_database_size_oid_null_iff, ?_, ?_, ?_, ⟨by rfl, by rfl⟩, ?_, ?_⟩
  · intro env aclOk dbName
    unfold pg_database_size_name
    rcases hn : get_database_oid env dbName with _ | dbOid
    · simp
    · rw [pg_database_size_oid_null_iff]
      constructor
      · intro hc
        exact ⟨dbOid, rfl, hc⟩
      · rintro ⟨oid2, ho, hc⟩
        rw [Option.some_inj.1 ho]
        exact hc
  · intro env path h
    exact db_dir_size_absent h
  · intro env path es h hz
    exact db_dir_size_zero_entries h hz
  · intro env tblspcOid h
    have hc : calculate_tablespace_size env true tblspcOid = some (-1) := by
      unfold calculate_tablespace_size
      rw [h]
      rfl
    refine ⟨hc, ?_⟩
    unfold pg_tablespace_size_oid
    rw [hc]
    rfl
  · intro env tblspcOid h
    unfold pg_tablespace_size_oid calculate_tablespace_size
    rw [h]
    rfl

/-- Witness for C10 at a concrete environment with an absent directory for
the db-dir conjunct and a missing tablespace directory for the sentinel
conjunct. -/
theorem pg_database_size_null_spec_witness :
    (lookupDir { dirs := [], dbNames := [] } "base/3" = none ∧
      db_dir_size { dirs := [], dbNames := [] } "base/3" = 0) ∧
    (lookupDir { dirs := [], dbNames := [] } (tablespacePath 7777) = none ∧
      pg_tablespace_size_oid { dirs := [], dbNames := [] } true 7777 = some SqlValue.null) :=
  ⟨⟨by rfl, pg_database_size_null_spec.2.2.1 { dirs := [], dbNames := [] } "base/3" (by rfl)⟩,
   ⟨by rfl, (pg_database_size_null_spec.2.2.2.2.2.1 { dirs := [], dbNames := [] } 7777 (by rfl)).2⟩⟩

/-- C1: `effectivePrivilege(actor, object, kind, sessionCtx)` returns true if
and only if the kind is granted on the object to the actor directly, to some
role in the inherited closure of the session's active role in the session's
scope, or to PUBLIC, with the contributing grant present (unrevoked) in the
store.  In particular, after granting a privilege on an object to PUBLIC and
then creating a brand-new role, the new role passes the check with no
explicit grant to it; and when PUBLIC holds the privilege, revoking a role's
own direct grant leaves the check true via PUBLIC. -/
theorem effectivePrivilege_spec :
    (∀ (st : AuthState) (actor obj kind : Nat) (ctx : SessionCtx),
        effectivePrivilege st actor obj kind ctx = true ↔
          (GrantedTo st obj kind (Grantee.Role actor) ∨
           (∃ r, Relation.ReflTransGen (InheritStep (visibleEdges st (ctxScope ctx)))
              ctx.activeRole r ∧ GrantedTo st obj kind (Grantee.Role r)) ∨
           GrantedTo st obj kind Grantee.Public)) ∧
    ((((grant { roles := [{ rid := 10, isSuperuser := true, canCreateRole := true },
                          { rid := 1, isSuperuser := false, canCreateRole := false }],
                edges := [], grants := [], owners := [(50, 1)], nextId := 0 }
          50 [7] Grantee.Public 1 false Scope.Global).map Prod.fst).bind
        (fun st1 => createRole st1 10 2 false false)).map (fun st2 =>
          effectivePrivilege st2 2 50 7 { loginRole := 2, activeRole := 2, db := 99 } &&
          st2.grants.all (fun g => !(decide (g.grantee = Grantee.Role 2)))) =
      Except.ok true) ∧
    (((((grant { roles := [{ rid := 1, isSuperuser := false, canCreateRole := false },
                           { rid := 3, isSuperuser := false, canCreateRole := false }],
                 edges := [], grants := [], owners := [(50, 1)], nextId := 0 }
          50 [1] Grantee.Public 1 false Scope.Global).map Prod.fst).bind
        (fun s => (grant s 50 [1] (Grantee.Role 3) 1 false Scope.Global).map Prod.fst)).bind
        (fun s => revoke s 50 1 (Grantee.Role 3) 1 false false)).map (fun s =>
          effectivePrivilege s 3 50 1 { loginRole := 3, activeRole := 3, db := 99 } &&
          !(hasGrantOn s 50 1 (Grantee.Role 3))) =
      Except.ok true) := by
  refine ⟨?_, by rfl, by rfl⟩
  intro st actor obj kind ctx
  unfold effectivePrivilege
  simp only [Bool.or_eq_true, List.any_eq_true, hasGrantOn_iff, mem_inheritedClosure]
  rw [or_assoc]

/-- C2: `addEdge(granted, member, grantor, admin, inherit, set, scope)` fails
with CycleError exactly when the granted role is already reachable from the
member through the existing edges of the union of Global-scope edges and the
scope's edges; on such a failure the membership graph is left unchanged.  In
particular, after granting membership of A to B, a subsequent attempt to
grant membership of B to A in the same scope fails with CycleError and
mutates nothing. -/
theorem addEdge_cycle_spec :
    (∀ (st : AuthState) (g m gr : Nat) (ad inh so : Bool) (sc : Scope) (parent : Option Nat),
        addEdge st g m gr ad inh so sc parent = .error AuthErr.CycleError ↔
          Relation.TransGen (EdgeStepDown (visibleEdges st sc)) m g) ∧
    (∀ (st : AuthState) (ctx : SessionCtx) (actor g m : Nat) (ad inh so : Bool)
        (sc : Scope) (e : AuthErr),
        runCmd st (Cmd.grantM ctx actor g m ad inh so sc) = .error e →
        applyCmd st (Cmd.grantM ctx actor g m ad inh so sc) = st) ∧
    ((addEdge { roles := [{ rid := 100, isSuperuser := false, canCreateRole := false },
                          { rid := 200, isSuperuser := false, canCreateRole := false }],
                edges := [], grants := [], owners := [], nextId := 0 }
        100 200 10 true true true Scope.Global none).map
      (fun s1 => addEdge s1 200 100 10 true true true Scope.Global none) =
      Except.ok (Except.error AuthErr.CycleError)) := by
  refine ⟨?_, ?_, by rfl⟩
  · intro st g m gr ad inh so sc parent
    unfold addEdge
    by_cases h : hasPathDown (visibleEdges st sc) m g = true
    · rw [if_pos h]
      constructor
      · intro _
        exact hasPathDown_iff.1 h
      · intro _
        rfl
    · rw [if_neg h]
      constructor
      · intro hc
        by_cases h2 : (m = publicSentinel ∨ g = m)
        · rw [if_pos (decide_eq_true h2)] at hc
          exact absurd (Except.error.inj hc) (by intro hx; cases hx)
        · rw [if_neg (fun hd => h2 (of_decide_eq_true hd))] at hc
          cases hc
      · intro ht
        exact absurd (hasPathDown_iff.2 ht) h
  · intro st ctx actor g m ad inh so sc e h
    exact runCmd_error_applyCmd h

/-- Witness for C2 at a concrete failing grant-membership command. -/
theorem addEdge_cycle_spec_witness :
    runCmd { roles := [{ rid := 1, isSuperuser := false, canCreateRole := false }],
             edges := [], grants := [], owners := [], nextId := 0 }
        (Cmd.grantM { loginRole := 1, activeRole := 1, db := 0 } 1 5 6 true true true
          Scope.Global) = .error AuthErr.PermissionDenied ∧
    applyCmd { roles := [{ rid := 1, isSuperuser := false, canCreateRole := false }],
               edges := [], grants := [], owners := [], nextId := 0 }
        (Cmd.grantM { loginRole := 1, activeRole := 1, db := 0 } 1 5 6 true true true
          Scope.Global) =
      { roles := [{ rid := 1, isSuperuser := false, canCreateRole := false }],
        edges := [], grants := [], owners := [], nextId := 0 } :=
  ⟨by rfl,
   addEdge_cycle_spec.2.1
     { roles := [{ rid := 1, isSuperuser := false, canCreateRole := false }],
       edges := [], grants := [], owners := [], nextId := 0 }
     { loginRole := 1, activeRole := 1, db := 0 } 1 5 6 true true true Scope.Global
     AuthErr.PermissionDenied (by rfl)⟩

/-- C3: cascading revocation, for privilege grants and for membership edges
alike, removes the revoker's own grant or edge and exactly the grants or
edges whose parent-reference chain passes through one removed in the same
operation, while a right also reachable through an independent grantor
survives; without cascade (RESTRICT) the operation fails with
DependencyError listing the blocking dependents and applies no mutation.
Concretely, after A grants P on O to B with grant option and B grants P to
C, revoking B's grant by A without cascade fails with DependencyError, and
with cascade both B's and C's grants are removed while C's grant obtained
through the independent grantor D survives; likewise, after A grants
membership in a role to B with the admin option, B grants it to C, and A
independently grants it to D, removing the B edge by A without cascade
fails with DependencyError naming the dependent C edge, and with cascade
both the B and C edges are removed while the independently granted D edge
survives. -/
theorem revoke_cascade_restrict_spec :
    (∀ (st : AuthState) (obj kind : Nat) (gt : Grantee) (revoker : Nat) (g : PrivGrant),
        g ∈ st.grants →
        (g ∈ (applyCmd st (Cmd.revokeP obj kind gt revoker false true)).grants ↔
          ¬ ∃ j ∈ rootGrantIds st obj kind gt revoker,
              Relation.ReflTransGen (DepStep st.grants) j g.gid)) ∧
    (∀ (st : AuthState) (obj kind : Nat) (gt : Grantee) (revoker : Nat) (oo cascade : Bool),
        (∀ i ∈ revokeRemovalSet st obj kind gt revoker,
          i ∈ rootGrantIds st obj kind gt revoker) →
        (revoke st obj kind gt revoker oo cascade).isOk = true) ∧
    (∀ (st : AuthState) (obj kind : Nat) (gt : Grantee) (revoker : Nat) (oo : Bool),
        (revokeRemovalSet st obj kind gt revoker).filter
            (fun i => decide (¬ i ∈ rootGrantIds st obj kind gt revoker)) ≠ [] →
        revoke st obj kind gt revoker oo false =
          .error (AuthErr.DependencyError
            ((revokeRemovalSet st obj kind gt revoker).filter
              (fun i => decide (¬ i ∈ rootGrantIds st obj kind gt revoker))))) ∧
    (∀ (st : AuthState) (obj kind : Nat) (gt : Grantee) (revoker : Nat) (i : Nat),
        i ∈ (revokeRemovalSet st obj kind gt revoker).filter
            (fun i => decide (¬ i ∈ rootGrantIds st obj kind gt revoker)) ↔
          ((∃ j ∈ rootGrantIds st obj kind gt revoker,
              Relation.ReflTransGen (DepStep st.grants) j i) ∧
           ¬ i ∈ rootGrantIds st obj kind gt revoker)) ∧
    (∀ (st : AuthState) (obj kind : Nat) (gt : Grantee) (revoker : Nat) (oo cascade : Bool)
        (e : AuthErr),
        revoke st obj kind gt revoker oo cascade = .error e →
        applyCmd st (Cmd.revokeP obj kind gt revoker oo cascade) = st) ∧
    (∀ (st : AuthState) (actor g m : Nat) (sc : Scope) (grOpt : Option Nat) (e : MemberEdge),
        (isSuperuser st actor ||
          (removalTargets st g m sc grOpt).all (fun x => decide (x.grantor = actor))) = true →
        e ∈ st.edges →
        (e ∈ (applyCmd st (Cmd.revokeM actor g m sc grOpt true)).edges ↔
          ¬ ∃ j ∈ edgeRootIds st g m sc grOpt,
              Relation.ReflTransGen (DepStepE st.edges) j e.eid)) ∧
    (∀ (st : AuthState) (actor g m : Nat) (sc : Scope) (grOpt : Option Nat),
        (isSuperuser st actor ||
          (removalTargets st g m sc grOpt).all (fun x => decide (x.grantor = actor))) = true →
        (edgeRemovalSet st g m sc grOpt).filter
            (fun i => decide (¬ i ∈ edgeRootIds st g m sc grOpt)) ≠ [] →
        removeEdge st actor g m sc grOpt false =
          .error (AuthErr.DependencyError
            ((edgeRemovalSet st g m sc grOpt).filter
              (fun i => decide (¬ i ∈ edgeRootIds st g m sc grOpt))))) ∧
    (∀ (st : AuthState) (g m : Nat) (sc : Scope) (grOpt : Option Nat) (i : Nat),
        i ∈ (edgeRemovalSet st g m sc grOpt).filter
            (fun i => decide (¬ i ∈ edgeRootIds st g m sc grOpt)) ↔
          ((∃ j ∈ edgeRootIds st g m sc grOpt,
              Relation.ReflTransGen (DepStepE st.edges) j i) ∧
           ¬ i ∈ edgeRootIds st g m sc grOpt)) ∧
    (∀ (st : AuthState) (actor g m : Nat) (sc : Scope) (grOpt : Option Nat) (cascade : Bool)
        (err : AuthErr),
        removeEdge st actor g m sc grOpt cascade = .error err →
        applyCmd st (Cmd.revokeM actor g m sc grOpt cascade) = st) ∧
    ((((((grant { roles := [{ rid := 1, isSuperuser := false, canCreateRole := false },
                            { rid := 2, isSuperuser := false, canCreateRole := false },
                            { rid := 3, isSuperuser := false, canCreateRole := false },
                            { rid := 4, isSuperuser := false, canCreateRole := false }],
                  edges := [], grants := [], owners := [(50, 1)], nextId := 0 }
          50 [7] (Grantee.Role 2) 1 true Scope.Global).map Prod.fst).bind
        (fun s => (grant s 50 [7] (Grantee.Role 4) 1 true Scope.Global).map Prod.fst)).bind
        (fun s => (grant s 50 [7] (Grantee.Role 3) 2 false Scope.Global).map Prod.fst)).bind
        (fun s => (grant s 50 [7] (Grantee.Role 3) 4 false Scope.Global).map Prod.fst)).map
        (fun s =>
          (revoke s 50 7 (Grantee.Role 2) 1 false false,
           (revoke s 50 7 (Grantee.Role 2) 1 false true).map (fun s2 =>
             !(hasGrantOn s2 50 7 (Grantee.Role 2)) &&
             hasGrantOn s2 50 7 (Grantee.Role 3) &&
             s2.grants.all (fun g => !(decide (g.gid = 2)))))) =
      Except.ok (Except.error (AuthErr.DependencyError [2]), Except.ok true)) ∧
    ((((grantMembership
          { roles := [{ rid := 10, isSuperuser := true, canCreateRole := true }],
            edges := [], grants := [], owners := [], nextId := 0 }
          { loginRole := 10, activeRole := 10, db := 1 } 10 5 2 true false false
          Scope.Global).bind
        (fun s => grantMembership s { loginRole := 10, activeRole := 10, db := 1 }
          2 5 3 false false false Scope.Global)).bind
        (fun s => grantMembership s { loginRole := 10, activeRole := 10, db := 1 }
          10 5 4 false false false Scope.Global)).map
        (fun s =>
          (removeEdge s 10 5 2 Scope.Global none false,
           (removeEdge s 10 5 2 Scope.Global none true).map (fun s2 =>
             decide (¬ ∃ e ∈ s2.edges, e.granted = 5 ∧ e.member = 2) &&
             decide (¬ ∃ e ∈ s2.edges, e.granted = 5 ∧ e.member = 3) &&
             decide (∃ e ∈ s2.edges, e.granted = 5 ∧ e.member = 4)))) =
      Except.ok (Except.error (AuthErr.DependencyError [1]), Except.ok true)) := by
  refine ⟨?_, ?_, ?_, ?_, ?_, ?_, ?_, ?_, ?_, by rfl, by rfl⟩
  · intro st obj kind gt revoker g hg
    have h1 : applyCmd st (Cmd.revokeP obj kind gt revoker false true) =
        { st with grants :=
          (st.grants.filter
            (fun g => decide (¬ g.gid ∈ revokeRemovalSet st obj kind gt revoker))) } := by
      unfold applyCmd
      simp only [runCmd]
      rw [revoke_cascade_ok]
    rw [h1]
    show g ∈ st.grants.filter
        (fun g => decide (¬ g.gid ∈ revokeRemovalSet st obj kind gt revoker)) ↔ _
    rw [List.mem_filter, decide_eq_true_eq]
    constructor
    · rintro ⟨_, hnot⟩ hex
      exact hnot (mem_revokeRemovalSet.2 hex)
    · intro hnot
      exact ⟨hg, fun hm => hnot (mem_revokeRemovalSet.1 hm)⟩
  · intro st obj kind gt revoker oo cascade hall
    have hdep : (revokeRemovalSet st obj kind gt revoker).filter
        (fun i => decide (¬ i ∈ rootGrantIds st obj kind gt revoker)) = [] := by
      rw [List.filter_eq_nil_iff]
      intro i hi
      simp [hall i hi]
    simp only [revoke, hdep, List.isEmpty_nil, Bool.not_true, Bool.false_and,
      Bool.false_eq_true, if_false]
    cases oo with
    | true => rfl
    | false => rfl
  · intro st obj kind gt revoker oo hne
    have hie : ((revokeRemovalSet st obj kind gt revoker).filter
        (fun i => decide (¬ i ∈ rootGrantIds st obj kind gt revoker))).isEmpty = false := by
      rcases hd : (revokeRemovalSet st obj kind gt revoker).filter
          (fun i => decide (¬ i ∈ rootGrantIds st obj kind gt revoker)) with _ | ⟨a, l⟩
      · exact absurd hd hne
      · rfl
    simp only [revoke, hie, Bool.not_false, Bool.not_true, Bool.and_true, if_true]
  · intro st obj kind gt revoker i
    rw [List.mem_filter, decide_eq_true_eq, mem_revokeRemovalSet]
  · intro st obj kind gt revoker oo cascade e h
    apply runCmd_error_applyCmd
    simp only [runCmd]
    exact h
  · intro st actor g m sc grOpt e hperm he
    have h1 : applyCmd st (Cmd.revokeM actor g m sc grOpt true) =
        { st with edges :=
          (st.edges.filter
            (fun x => decide (¬ x.eid ∈ edgeRemovalSet st g m sc grOpt))) } := by
      unfold applyCmd
      simp only [runCmd]
      rw [removeEdge_cascade_ok st actor g m sc grOpt hperm]
    rw [h1]
    show e ∈ st.edges.filter
        (fun x => decide (¬ x.eid ∈ edgeRemovalSet st g m sc grOpt)) ↔ _
    rw [List.mem_filter, decide_eq_true_eq]
    constructor
    · rintro ⟨_, hnot⟩ hex
      exact hnot (mem_edgeRemovalSet.2 hex)
    · intro hnot
      exact ⟨he, fun hm => hnot (mem_edgeRemovalSet.1 hm)⟩
  · intro st actor g m sc grOpt hperm hne
    have hie : ((edgeRemovalSet st g m sc grOpt).filter
        (fun i => decide (¬ i ∈ edgeRootIds st g m sc grOpt))).isEmpty = false := by
      rcases hd : (edgeRemovalSet st g m sc grOpt).filter
          (fun i => decide (¬ i ∈ edgeRootIds st g m sc grOpt)) with _ | ⟨a, l⟩
      · exact absurd hd hne
      · rfl
    unfold edgeRemovalSet edgeRootIds at hie ⊢
    simp only [removeEdge, hperm, Bool.not_true, Bool.not_false, Bool.false_eq_true,
      if_false, ite_false, hie, Bool.and_self, Bool.true_and, Bool.and_true, if_true,
      ite_true]
  · intro st g m sc grOpt i
    rw [List.mem_filter, decide_eq_true_eq, mem_edgeRemovalSet]
  · intro st actor g m sc grOpt cascade err h
    apply runCmd_error_applyCmd
    simp only [runCmd]
    exact h

/-- Witness for C3: the no-dependent success conjunct at a concrete state
with a single root grant, and the membership-edge RESTRICT conjunct at a
concrete state whose middle edge depends on the edge being removed. -/
theorem revoke_cascade_restrict_spec_witness :
    ((∀ i ∈ revokeRemovalSet
        { roles := [], edges := [],
          grants := [{ gid := 0, obj := 50, kind := 7, grantee := Grantee.Role 2,
                       grantor := 1, grantOption := false, parentRef := none }],
          owners := [], nextId := 1 } 50 7 (Grantee.Role 2) 1,
        i ∈ rootGrantIds
          { roles := [], edges := [],
            grants := [{ gid := 0, obj := 50, kind := 7, grantee := Grantee.Role 2,
                         grantor := 1, grantOption := false, parentRef := none }],
            owners := [], nextId := 1 } 50 7 (Grantee.Role 2) 1) ∧
      (revoke { roles := [], edges := [],
                grants := [{ gid := 0, obj := 50, kind := 7, grantee := Grantee.Role 2,
                             grantor := 1, grantOption := false, parentRef := none }],
                owners := [], nextId := 1 } 50 7 (Grantee.Role 2) 1 false false).isOk =
        true) ∧
    removeEdge
      { roles := [{ rid := 10, isSuperuser := true, canCreateRole := true }],
        edges := [{ granted := 5, member := 4, grantor := 10, admin := false,
                    inherit := false, setOpt := false, scope := Scope.Global, eid := 2,
                    parentRef := none },
                  { granted := 5, member := 3, grantor := 2, admin := false,
                    inherit := false, setOpt := false, scope := Scope.Global, eid := 1,
                    parentRef := some 0 },
                  { granted := 5, member := 2, grantor := 10, admin := true,
                    inherit := false, setOpt := false, scope := Scope.Global, eid := 0,
                    parentRef := none }],
        grants := [], owners := [], nextId := 3 } 10 5 2 Scope.Global none false =
      .error (AuthErr.DependencyError
        ((edgeRemovalSet
          { roles := [{ rid := 10, isSuperuser := true, canCreateRole := true }],
            edges := [{ granted := 5, member := 4, grantor := 10, admin := false,
                        inherit := false, setOpt := false, scope := Scope.Global, eid := 2,
                        parentRef := none },
                      { granted := 5, member := 3, grantor := 2, admin := false,
                        inherit := false, setOpt := false, scope := Scope.Global, eid := 1,
                        parentRef := some 0 },
                      { granted := 5, member := 2, grantor := 10, admin := true,
                        inherit := false, setOpt := false, scope := Scope.Global, eid := 0,
                        parentRef := none }],
            grants := [], owners := [], nextId := 3 } 5 2 Scope.Global none).filter
          (fun i => decide (¬ i ∈ edgeRootIds
            { roles := [{ rid := 10, isSuperuser := true, canCreateRole := true }],
              edges := [{ granted := 5, member := 4, grantor := 10, admin := false,
                          inherit := false, setOpt := false, scope := Scope.Global, eid := 2,
                          parentRef := none },
                        { granted := 5, member := 3, grantor := 2, admin := false,
                          inherit := false, setOpt := false, scope := Scope.Global, eid := 1,
                          parentRef := some 0 },
                        { granted := 5, member := 2, grantor := 10, admin := true,
                          inherit := false, setOpt := false, scope := Scope.Global, eid := 0,
                          parentRef := none }],
              grants := [], owners := [], nextId := 3 } 5 2 Scope.Global none)))) :=
  ⟨⟨by decide,
    revoke_cascade_restrict_spec.2.1
      { roles := [], edges := [],
        grants := [{ gid := 0, obj := 50, kind := 7, grantee := Grantee.Role 2,
                     grantor := 1, grantOption := false, parentRef := none }],
        owners := [], nextId := 1 } 50 7 (Grantee.Role 2) 1 false false (by decide)⟩,
   revoke_cascade_restrict_spec.2.2.2.2.2.2.1
     { roles := [{ rid := 10, isSuperuser := true, canCreateRole := true }],
       edges := [{ granted := 5, member := 4, grantor := 10, admin := false,
                   inherit := false, setOpt := false, scope := Scope.Global, eid := 2,
                   parentRef := none },
                 { granted := 5, member := 3, grantor := 2, admin := false,
                   inherit := false, setOpt := false, scope := Scope.Global, eid := 1,
                   parentRef := some 0 },
                 { granted := 5, member := 2, grantor := 10, admin := true,
                   inherit := false, setOpt := false, scope := Scope.Global, eid := 0,
                   parentRef := none }],
       grants := [], owners := [], nextId := 3 } 10 5 2 Scope.Global none
     (by decide) (by decide)⟩

/-- C4: `setRole(target)` succeeds and sets the active role to the target if
and only if the target is the session's login role or is in the
SET-eligibility closure of the login role in the current scope; otherwise it
fails with NotAuthorized and the session context is unchanged.  Eligibility
is always evaluated against the original login role, never the current
active role, so the result is independent of the active role.  On the
example graph, setRole(wheel) succeeds directly from joe through the
all-set-true chain joe to admin to wheel, while setRole(island) fails with
NotAuthorized because island's edge has set = false. -/
theorem setRole_spec :
    (∀ (st : AuthState) (ctx : SessionCtx) (target : Nat),
        setRole st ctx target = .ok { ctx with activeRole := target } ↔
          (target = ctx.loginRole ∨
           Relation.ReflTransGen (SetOptStep (visibleEdges st (ctxScope ctx)))
             ctx.loginRole target)) ∧
    (∀ (st : AuthState) (ctx : SessionCtx) (target : Nat),
        setRole st ctx target = .error AuthErr.NotAuthorized ↔
          ¬ (target = ctx.loginRole ∨
             Relation.ReflTransGen (SetOptStep (visibleEdges st (ctxScope ctx)))
               ctx.loginRole target)) ∧
    (∀ (st : AuthState) (ctx1 ctx2 : SessionCtx) (target : Nat),
        ctx1.loginRole = ctx2.loginRole → ctx1.db = ctx2.db →
        (setRole st ctx1 target).isOk = (setRole st ctx2 target).isOk) ∧
    (setRole
        { roles := [{ rid := 1, isSuperuser := false, canCreateRole := false },
                    { rid := 2, isSuperuser := false, canCreateRole := false },
                    { rid := 3, isSuperuser := false, canCreateRole := false },
                    { rid := 4, isSuperuser := false, canCreateRole := false }],
          edges := [{ granted := 2, member := 1, grantor := 10, admin := false,
                      inherit := true, setOpt := true, scope := Scope.Global,
                      eid := 0, parentRef := none },
                    { granted := 3, member := 2, grantor := 10, admin := false,
                      inherit := false, setOpt := true, scope := Scope.Global,
                      eid := 1, parentRef := none },
                    { granted := 4, member := 1, grantor := 10, admin := false,
                      inherit := true, setOpt := false, scope := Scope.Global,
                      eid := 2, parentRef := none }],
          grants := [], owners := [], nextId := 3 }
        { loginRole := 1, activeRole := 1, db := 55 } 3 =
        .ok { loginRole := 1, activeRole := 3, db := 55 } ∧
     setRole
        { roles := [{ rid := 1, isSuperuser := false, canCreateRole := false },
                    { rid := 2, isSuperuser := false, canCreateRole := false },
                    { rid := 3, isSuperuser := false, canCreateRole := false },
                    { rid := 4, isSuperuser := false, canCreateRole := false }],
          edges := [{ granted := 2, member := 1, grantor := 10, admin := false,
                      inherit := true, setOpt := true, scope := Scope.Global,
                      eid := 0, parentRef := none },
                    { granted := 3, member := 2, grantor := 10, admin := false,
                      inherit := false, setOpt := true, scope := Scope.Global,
                      eid := 1, parentRef := none },
                    { granted := 4, member := 1, grantor := 10, admin := false,
                      inherit := true, setOpt := false, scope := Scope.Global,
                      eid := 2, parentRef := none }],
          grants := [], owners := [], nextId := 3 }
        { loginRole := 1, activeRole := 1, db := 55 } 4 =
        .error AuthErr.NotAuthorized) := by
  refine ⟨?_, ?_, ?_, by rfl, by rfl⟩
  · intro st ctx target
    unfold setRole
    by_cases h : (target = ctx.loginRole ∨
        target ∈ setEligibleClosure st ctx.loginRole (ctxScope ctx))
    · have hb : (decide (target = ctx.loginRole) ||
          decide (target ∈ setEligibleClosure st ctx.loginRole (ctxScope ctx))) = true := by
        rcases h with h | h <;> simp [h]
      rw [if_pos hb]
      constructor
      · intro _
        rcases h with h | h
        · exact Or.inl h
        · exact Or.inr (mem_setEligibleClosure.1 h)
      · intro _
        rfl
    · have hb : (decide (target = ctx.loginRole) ||
          decide (target ∈ setEligibleClosure st ctx.loginRole (ctxScope ctx))) = false := by
        push_neg at h
        simp [h.1, h.2]
      rw [if_neg (by rw [hb]; exact Bool.false_ne_true)]
      constructor
      · intro hc
        cases hc
      · intro hr
        exfalso
        apply h
        rcases hr with h1 | h1
        · exact Or.inl h1
        · exact Or.inr (mem_setEligibleClosure.2 h1)
  · intro st ctx target
    unfold setRole
    by_cases h : (target = ctx.loginRole ∨
        target ∈ setEligibleClosure st ctx.loginRole (ctxScope ctx))
    · have hb : (decide (target = ctx.loginRole) ||
          decide (target ∈ setEligibleClosure st ctx.loginRole (ctxScope ctx))) = true := by
        rcases h with h | h <;> simp [h]
      rw [if_pos hb]
      constructor
      · intro hc
        cases hc
      · intro hr
        exfalso
        apply hr
        rcases h with h1 | h1
        · exact Or.inl h1
        · exact Or.inr (mem_setEligibleClosure.1 h1)
    · have hb : (decide (target = ctx.loginRole) ||
          decide (target ∈ setEligibleClosure st ctx.loginRole (ctxScope ctx))) = false := by
        push_neg at h
        simp [h.1, h.2]
      rw [if_neg (by rw [hb]; exact Bool.false_ne_true)]
      constructor
      · intro _
        intro hr
        apply h
        rcases hr with h1 | h1
        · exact Or.inl h1
        · exact Or.inr (mem_setEligibleClosure.2 h1)
      · intro _
        rfl
  · intro st ctx1 ctx2 target h1 h2
    unfold setRole
    have hsc : ctxScope ctx1 = ctxScope ctx2 := by
      unfold ctxScope
      rw [h2]
    rw [h1, hsc]
    cases hC : (decide (target = ctx2.loginRole) ||
        decide (target ∈ setEligibleClosure st ctx2.loginRole (ctxScope ctx2))) with
    | false => simp [hC]
    | true =>
      simp only [hC, if_true]
      rfl

/-- Witness for C4: the active-role independence conjunct at two concrete
contexts sharing login role and database. -/
theorem setRole_spec_witness :
    (({ loginRole := 1, activeRole := 1, db := 55 } : SessionCtx).loginRole =
        ({ loginRole := 1, activeRole := 9, db := 55 } : SessionCtx).loginRole ∧
     ({ loginRole := 1, activeRole := 1, db := 55 } : SessionCtx).db =
        ({ loginRole := 1, activeRole := 9, db := 55 } : SessionCtx).db) ∧
    (setRole { roles := [], edges := [], grants := [], owners := [], nextId := 0 }
        { loginRole := 1, activeRole := 1, db := 55 } 2).isOk =
      (setRole { roles := [], edges := [], grants := [], owners := [], nextId := 0 }
        { loginRole := 1, activeRole := 9, db := 55 } 2).isOk :=
  ⟨⟨rfl, rfl⟩,
   setRole_spec.2.2.1 { roles := [], edges := [], grants := [], owners := [], nextId := 0 }
     { loginRole := 1, activeRole := 1, db := 55 }
     { loginRole := 1, activeRole := 9, db := 55 } 2 rfl rfl⟩

/-- C5: `inheritedClosure(root, scope)` is exactly the set of roles reachable
from the root along edges with the inherit option among the edges visible in
the scope; traversal never continues past an edge without the inherit
option, but a blocked edge does not prevent exploration of sibling edges.
On the example graph (admin and island granted to joe with inherit, wheel
granted to admin without inherit), a session as joe holds the privileges of
joe, admin and island but not wheel's, and after setRole(admin) only
admin's. -/
theorem inheritedClosure_spec :
    (∀ (st : AuthState) (root : Nat) (sc : Scope) (r : Nat),
        r ∈ inheritedClosure st root sc ↔
          Relation.ReflTransGen (InheritStep (visibleEdges st sc)) root r) ∧
    ((sessionPrivilege
        { roles := [{ rid := 1, isSuperuser := false, canCreateRole := false },
                    { rid := 2, isSuperuser := false, canCreateRole := false },
                    { rid := 3, isSuperuser := false, canCreateRole := false },
                    { rid := 4, isSuperuser := false, canCreateRole := false }],
          edges := [{ granted := 2, member := 1, grantor := 10, admin := false,
                      inherit := true, setOpt := true, scope := Scope.Global,
                      eid := 0, parentRef := none },
                    { granted := 3, member := 2, grantor := 10, admin := false,
                      inherit := false, setOpt := true, scope := Scope.Global,
                      eid := 1, parentRef := none },
                    { granted := 4, member := 1, grantor := 10, admin := false,
                      inherit := true, setOpt := false, scope := Scope.Global,
                      eid := 2, parentRef := none }],
          grants := [{ gid := 0, obj := 101, kind := 7, grantee := Grantee.Role 1,
                       grantor := 10, grantOption := false, parentRef := none },
                     { gid := 1, obj := 102, kind := 7, grantee := Grantee.Role 2,
                       grantor := 10, grantOption := false, parentRef := none },
                     { gid := 2, obj := 103, kind := 7, grantee := Grantee.Role 3,
                       grantor := 10, grantOption := false, parentRef := none },
                     { gid := 3, obj := 104, kind := 7, grantee := Grantee.Role 4,
                       grantor := 10, grantOption := false, parentRef := none }],
          owners := [], nextId := 4 }
        { loginRole := 1, activeRole := 1, db := 55 } 101 7,
      sessionPrivilege
        { roles := [{ rid := 1, isSuperuser := false, canCreateRole := false },
                    { rid := 2, isSuperuser := false, canCreateRole := false },
                    { rid := 3, isSuperuser := false, canCreateRole := false },
                    { rid := 4, isSuperuser := false, canCreateRole := false }],
          edges := [{ granted := 2, member := 1, grantor := 10, admin := false,
                      inherit := true, setOpt := true, scope := Scope.Global,
                      eid := 0, parentRef := none },
                    { granted := 3, member := 2, grantor := 10, admin := false,
                      inherit := false, setOpt := true, scope := Scope.Global,
                      eid := 1, parentRef := none },
                    { granted := 4, member := 1, grantor := 10, admin := false,
                      inherit := true, setOpt := false, scope := Scope.Global,
                      eid := 2, parentRef := none }],
          grants := [{ gid := 0, obj := 101, kind := 7, grantee := Grantee.Role 1,
                       grantor := 10, grantOption := false, parentRef := none },
                     { gid := 1, obj := 102, kind := 7, grantee := Grantee.Role 2,
                       grantor := 10, grantOption := false, parentRef := none },
                     { gid := 2, obj := 103, kind := 7, grantee := Grantee.Role 3,
                       grantor := 10, grantOption := false, parentRef := none },
                     { gid := 3, obj := 104, kind := 7, grantee := Grantee.Role 4,
                       grantor := 10, grantOption := false, parentRef := none }],
          owners := [], nextId := 4 }
        { loginRole := 1, activeRole := 1, db := 55 } 102 7,
      sessionPrivilege
        { roles := [{ rid := 1, isSuperuser := false, canCreateRole := false },
                    { rid := 2, isSuperuser := false, canCreateRole := false },
                    { rid := 3, isSuperuser := false, canCreateRole := false },
                    { rid := 4, isSuperuser := false, canCreateRole := false }],
          edges := [{ granted := 2, member := 1, grantor := 10, admin := false,
                      inherit := true, setOpt := true, scope := Scope.Global,
                      eid := 0, parentRef := none },
                    { granted := 3, member := 2, grantor := 10, admin := false,
                      inherit := false, setOpt := true, scope := Scope.Global,
                      eid := 1, parentRef := none },
                    { granted := 4, member := 1, grantor := 10, admin := false,
                      inherit := true, setOpt := false, scope := Scope.Global,
                      eid := 2, parentRef := none }],
          grants := [{ gid := 0, obj := 101, kind := 7, grantee := Grantee.Role 1,
                       grantor := 10, grantOption := false, parentRef := none },
                     { gid := 1, obj := 102, kind := 7, grantee := Grantee.Role 2,
                       grantor := 10, grantOption := false, parentRef := none },
                     { gid := 2, obj := 103, kind := 7, grantee := Grantee.Role 3,
                       grantor := 10, grantOption := false, parentRef := none },
                     { gid := 3, obj := 104, kind := 7, grantee := Grantee.Role 4,
                       grantor := 10, grantOption := false, parentRef := none }],
          owners := [], nextId := 4 }
        { loginRole := 1, activeRole := 1, db := 55 } 104 7,
      sessionPrivilege
        { roles := [{ rid := 1, isSuperuser := false, canCreateRole := false },
                    { rid := 2, isSuperuser := false, canCreateRole := false },
                    { rid := 3, isSuperuser := false, canCreateRole := false },
                    { rid := 4, isSuperuser := false, canCreateRole := false }],
          edges := [{ granted := 2, member := 1, grantor := 10, admin := false,
                      inherit := true, setOpt := true, scope := Scope.Global,
                      eid := 0, parentRef := none },
                    { granted := 3, member := 2, grantor := 10, admin := false,
                      inherit := false, setOpt := true, scope := Scope.Global,
                      eid := 1, parentRef := none },
                    { granted := 4, member := 1, grantor := 10, admin := false,
                      inherit := true, setOpt := false, scope := Scope.Global,
                      eid := 2, parentRef := none }],
          grants := [{ gid := 0, obj := 101, kind := 7, grantee := Grantee.Role 1,
                       grantor := 10, grantOption := false, parentRef := none },
                     { gid := 1, obj := 102, kind := 7, grantee := Grantee.Role 2,
                       grantor := 10, grantOption := false, parentRef := none },
                     { gid := 2, obj := 103, kind := 7, grantee := Grantee.Role 3,
                       grantor := 10, grantOption := false, parentRef := none },
                     { gid := 3, obj := 104, kind := 7, grantee := Grantee.Role 4,
                       grantor := 10, grantOption := false, parentRef := none }],
          owners := [], nextId := 4 }
        { loginRole := 1, activeRole := 2, db := 55 } 102 7,
      sessionPrivilege
        { roles := [{ rid := 1, isSuperuser := false, canCreateRole := false },
                    { rid := 2, isSuperuser := false, canCreateRole := false },
                    { rid := 3, isSuperuser := false, canCreateRole := false },
                    { rid := 4, isSuperuser := false, canCreateRole := false }],
          edges := [{ granted := 2, member := 1, grantor := 10, admin := false,
                      inherit := true, setOpt := true, scope := Scope.Global,
                      eid := 0, parentRef := none },
                    { granted := 3, member := 2, grantor := 10, admin := false,
                      inherit := false, setOpt := true, scope := Scope.Global,
                      eid := 1, parentRef := none },
                    { granted := 4, member := 1, grantor := 10, admin := false,
                      inherit := true, setOpt := false, scope := Scope.Global,
                      eid := 2, parentRef := none }],
          grants := [{ gid := 0, obj := 101, kind := 7, grantee := Grantee.Role 1,
                       grantor := 10, grantOption := false, parentRef := none },
                     { gid := 1, obj := 102, kind := 7, grantee := Grantee.Role 2,
                       grantor := 10, grantOption := false, parentRef := none },
                     { gid := 2, obj := 103, kind := 7, grantee := Grantee.Role 3,
                       grantor := 10, grantOption := false, parentRef := none },
                     { gid := 3, obj := 104, kind := 7, grantee := Grantee.Role 4,
                       grantor := 10, grantOption := false, parentRef := none }],
          owners := [], nextId := 4 }
        { loginRole := 1, activeRole := 2, db := 55 } 101 7,
      sessionPrivilege
        { roles := [{ rid := 1, isSuperuser := false, canCreateRole := false },
                    { rid := 2, isSuperuser := false, canCreateRole := false },
                    { rid := 3, isSuperuser := false, canCreateRole := false },
                    { rid := 4, isSuperuser := false, canCreateRole := false }],
          edges := [{ granted := 2, member := 1, grantor := 10, admin := false,
                      inherit := true, setOpt := true, scope := Scope.Global,
                      eid := 0, parentRef := none },
                    { granted := 3, member := 2, grantor := 10, admin := false,
                      inherit := false, setOpt := true, scope := Scope.Global,
                      eid := 1, parentRef := none },
                    { granted := 4, member := 1, grantor := 10, admin := false,
                      inherit := true, setOpt := false, scope := Scope.Global,
                      eid := 2, parentRef := none }],
          grants := [{ gid := 0, obj := 101, kind := 7, grantee := Grantee.Role 1,
                       grantor := 10, grantOption := false, parentRef := none },
                     { gid := 1, obj := 102, kind := 7, grantee := Grantee.Role 2,
                       grantor := 10, grantOption := false, parentRef := none },
                     { gid := 2, obj := 103, kind := 7, grantee := Grantee.Role 3,
                       grantor := 10, grantOption := false, parentRef := none },
                     { gid := 3, obj := 104, kind := 7, grantee := Grantee.Role 4,
                       grantor := 10, grantOption := false, parentRef := none }],
          owners := [], nextId := 4 }
        { loginRole := 1, activeRole := 2, db := 55 } 104 7) =
      (true, true, true, true, false, false)) ∧
    (sessionPrivilege
        { roles := [{ rid := 1, isSuperuser := false, canCreateRole := false },
                    { rid := 2, isSuperuser := false, canCreateRole := false },
                    { rid := 3, isSuperuser := false, canCreateRole := false },
                    { rid := 4, isSuperuser := false, canCreateRole := false }],
          edges := [{ granted := 2, member := 1, grantor := 10, admin := false,
                      inherit := true, setOpt := true, scope := Scope.Global,
                      eid := 0, parentRef := none },
                    { granted := 3, member := 2, grantor := 10, admin := false,
                      inherit := false, setOpt := true, scope := Scope.Global,
                      eid := 1, parentRef := none },
                    { granted := 4, member := 1, grantor := 10, admin := false,
                      inherit := true, setOpt := false, scope := Scope.Global,
                      eid := 2, parentRef := none }],
          grants := [{ gid := 0, obj := 101, kind := 7, grantee := Grantee.Role 1,
                       grantor := 10, grantOption := false, parentRef := none },
                     { gid := 1, obj := 102, kind := 7, grantee := Grantee.Role 2,
                       grantor := 10, grantOption := false, parentRef := none },
                     { gid := 2, obj := 103, kind := 7, grantee := Grantee.Role 3,
                       grantor := 10, grantOption := false, parentRef := none },
                     { gid := 3, obj := 104, kind := 7, grantee := Grantee.Role 4,
                       grantor := 10, grantOption := false, parentRef := none }],
          owners := [], nextId := 4 }
        { loginRole := 1, activeRole := 1, db := 55 } 103 7 = false) := by
  exact ⟨fun st root sc r => mem_inheritedClosure, by rfl, by rfl⟩

/-- C6: for every grant issued by a non-superuser, non-owner grantor: if the
grantor holds no privilege at all on the object, the command fails with
PermissionDenied and creates no grant row; if the grantor holds grant
options for only a proper subset of the named privileges, the command
succeeds for exactly that subset and surfaces a PartialGrantWarning
diagnostic rather than failing.  This is the sole operation with a
sanctioned partial effect: every failing command of the administrative
surface leaves the state entirely unchanged. -/
theorem grant_partial_spec :
    (∀ (st : AuthState) (obj : Nat) (kinds : List Nat) (gt : Grantee) (grantor : Nat)
        (wopt : Bool) (sc : Scope),
        isSuperuser st grantor = false → isOwner st grantor obj = false →
        ((grant st obj kinds gt grantor wopt sc = .error AuthErr.PermissionDenied ↔
            holdsAnyOnObject st grantor obj sc = false) ∧
         (holdsAnyOnObject st grantor obj sc = true →
          ¬ (wopt = true ∧ gt = Grantee.Public) →
          grant st obj kinds gt grantor wopt sc =
            .ok (applyGrantKinds st grantor obj
                   (kinds.filter (fun k => holdsGrantOption st grantor obj k sc)) gt wopt sc,
                 if decide (kinds.filter (fun k => holdsGrantOption st grantor obj k sc)
                     = kinds) = true
                 then [] else [Diag.PartialGrantWarning])))) ∧
    (∀ (st : AuthState) (c : Cmd) (e : AuthErr),
        runCmd st c = .error e → applyCmd st c = st) ∧
    (((((grant { roles := [{ rid := 1, isSuperuser := false, canCreateRole := false },
                           { rid := 2, isSuperuser := false, canCreateRole := false },
                           { rid := 3, isSuperuser := false, canCreateRole := false }],
                 edges := [], grants := [], owners := [(50, 1)], nextId := 0 }
          50 [7] (Grantee.Role 2) 1 true Scope.Global).map Prod.fst).bind
        (fun s => (grant s 50 [8] (Grantee.Role 2) 1 false Scope.Global).map Prod.fst)).bind
        (fun s => grant s 50 [7, 8] (Grantee.Role 3) 2 false Scope.Global)).map
        (fun p => (p.snd, hasGrantOn p.fst 50 7 (Grantee.Role 3),
                   hasGrantOn p.fst 50 8 (Grantee.Role 3))) =
      Except.ok ([Diag.PartialGrantWarning], true, false)) := by
  refine ⟨?_, ?_, by rfl⟩
  · intro st obj kinds gt grantor wopt sc hsup hown
    unfold grant
    rw [hsup, hown]
    simp only [Bool.or_false, Bool.false_eq_true, if_false]
    constructor
    · by_cases hany : holdsAnyOnObject st grantor obj sc = true
      · rw [hany]
        simp only [Bool.not_true, Bool.false_eq_true, if_false]
        constructor
        · intro hc
          by_cases hp : (wopt && decide (gt = Grantee.Public)) = true
          · rw [if_pos hp] at hc
            exact absurd (Except.error.inj hc) (by intro hx; cases hx)
          · rw [if_neg hp] at hc
            cases hc
        · intro hfalse
          exact absurd hfalse (by decide)
      · have hf : holdsAnyOnObject st grantor obj sc = false := by
          cases hx : holdsAnyOnObject st grantor obj sc
          · rfl
          · exact absurd hx hany
        rw [hf]
        simp only [Bool.not_false, if_true]
    · intro hany hnp
      rw [hany]
      simp only [Bool.not_true, Bool.false_eq_true, if_false]
      have hp : ¬ (wopt && decide (gt = Grantee.Public)) = true := by
        intro hc
        simp only [Bool.and_eq_true, decide_eq_true_eq] at hc
        exact hnp hc
      rw [if_neg hp]
  · intro st c e h
    exact runCmd_error_applyCmd h

/-- Witness for C6 at a concrete non-superuser, non-owner grantor without
any privilege on the object. -/
theorem grant_partial_spec_witness :
    (isSuperuser { roles := [{ rid := 2, isSuperuser := false, canCreateRole := false }],
                   edges := [], grants := [], owners := [(50, 1)], nextId := 0 } 2 = false ∧
     isOwner { roles := [{ rid := 2, isSuperuser := false, canCreateRole := false }],
               edges := [], grants := [], owners := [(50, 1)], nextId := 0 } 2 50 = false) ∧
    (grant { roles := [{ rid := 2, isSuperuser := false, canCreateRole := false }],
             edges := [], grants := [], owners := [(50, 1)], nextId := 0 }
        50 [7] (Grantee.Role 3) 2 false Scope.Global = .error AuthErr.PermissionDenied ↔
      holdsAnyOnObject { roles := [{ rid := 2, isSuperuser := false, canCreateRole := false }],
                         edges := [], grants := [], owners := [(50, 1)], nextId := 0 }
        2 50 Scope.Global = false) :=
  ⟨⟨by rfl, by rfl⟩,
   (grant_partial_spec.1
      { roles := [{ rid := 2, isSuperuser := false, canCreateRole := false }],
        edges := [], grants := [], owners := [(50, 1)], nextId := 0 }
      50 [7] (Grantee.Role 3) 2 false Scope.Global (by rfl) (by rfl)).1⟩

/-- C7: when a non-superuser holding the create-role capability creates a
fresh role, the membership graph afterwards contains exactly one additional
automatic edge (granted = new role, member = creator, grantor =
BootstrapSentinel, admin = true, inherit = false, set = false, scope =
Global); because the recorded grantor is the bootstrap sentinel and not the
creator, the creator (a non-superuser) cannot remove the edge — removeEdge
fails with PermissionDenied whether or not the grantor is named and whether
or not CASCADE is requested — yet the admin option carried by that edge
still lets the creator re-grant the new role to themselves with the inherit
and/or set options, without disturbing the automatic edge. -/
theorem createRole_autogrant_spec :
    ∀ (st : AuthState) (creator rid : Nat) (newCr : Bool),
      isSuperuser st creator = false →
      canCreateRole st creator = true →
      roleExists st rid = false →
      rid ≠ publicSentinel →
      creator ≠ publicSentinel →
      creator ≠ bootstrapSentinel →
      (∀ e ∈ st.edges, e.granted ≠ rid ∧ e.member ≠ rid) →
      ∃ st2,
        createRole st creator rid false newCr = .ok st2 ∧
        st2.edges =
          { granted := rid, member := creator, grantor := bootstrapSentinel, admin := true,
            inherit := false, setOpt := false, scope := Scope.Global, eid := st.nextId,
            parentRef := none } :: st.edges ∧
        hasAdminOption st2 creator rid Scope.Global = true ∧
        (∀ cascade : Bool,
          removeEdge st2 creator rid creator Scope.Global none cascade =
            .error AuthErr.PermissionDenied ∧
          removeEdge st2 creator rid creator Scope.Global (some bootstrapSentinel) cascade =
            .error AuthErr.PermissionDenied) ∧
        (∀ (ctx : SessionCtx) (inh so : Bool),
          ∃ st3,
            grantMembership st2 ctx creator rid creator true inh so Scope.Global = .ok st3 ∧
            { granted := rid, member := creator, grantor := bootstrapSentinel, admin := true,
              inherit := false, setOpt := false, scope := Scope.Global, eid := st.nextId,
              parentRef := none } ∈ st3.edges ∧
            ∃ e ∈ st3.edges, e.granted = rid ∧ e.member = creator ∧ e.grantor = creator ∧
              e.admin = true ∧ e.inherit = inh ∧ e.setOpt = so ∧ e.scope = Scope.Global) := by
  intro st creator rid newCr hsup hccr hrex hrpub hcpub hcsent hfresh
  have hcr : creator ≠ rid := by
    intro he
    obtain ⟨a, ha, hp⟩ := List.any_eq_true.1 hccr
    simp only [Bool.and_eq_true, decide_eq_true_eq] at hp
    have hex : roleExists st rid = true :=
      List.any_eq_true.2 ⟨a, ha, decide_eq_true (hp.1.trans he)⟩
    rw [hrex] at hex
    cases hex
  have hne : ¬ st.edges.any
      (fun e => edgeKeyMatches e rid creator bootstrapSentinel Scope.Global) = true := by
    intro hany
    obtain ⟨e, he, hk⟩ := List.any_eq_true.1 hany
    simp only [edgeKeyMatches, decide_eq_true_eq] at hk
    exact (hfresh e he).1 hk.1
  have htail : ∀ {p : MemberEdge → Bool},
      (∀ e, p e = true → e.granted = rid) → st.edges.filter p = [] := by
    intro p hp
    rw [List.filter_eq_nil_iff]
    intro e he hpe
    exact (hfresh e he).1 (hp e hpe)
  have hcreate : createRole st creator rid false newCr = .ok
      { st with
        roles := { rid := rid, isSuperuser := false, canCreateRole := newCr } :: st.roles,
        edges := { granted := rid, member := creator, grantor := bootstrapSentinel,
                   admin := true, inherit := false, setOpt := false, scope := Scope.Global,
                   eid := st.nextId, parentRef := none } :: st.edges,
        nextId := st.nextId + 1 } := by
    simp only [createRole, hsup, hccr, hrex, decide_eq_false hrpub, Bool.false_or,
      Bool.or_false, Bool.not_true, Bool.not_false, Bool.false_and, Bool.and_true,
      Bool.false_eq_true, if_false, ite_false]
    simp only [upsertEdge]
    rw [if_neg hne]
  have hsup2 : isSuperuser
      { st with
        roles := { rid := rid, isSuperuser := false, canCreateRole := newCr } :: st.roles,
        edges := { granted := rid, member := creator, grantor := bootstrapSentinel,
                   admin := true, inherit := false, setOpt := false, scope := Scope.Global,
                   eid := st.nextId, parentRef := none } :: st.edges,
        nextId := st.nextId + 1 } creator = false := by
    unfold isSuperuser at hsup ⊢
    simp only [List.any_cons, Bool.and_false, Bool.false_or]
    exact hsup
  refine ⟨_, hcreate, rfl, ?_, ?_, ?_⟩
  · unfold hasAdminOption adminEdgeAt
    simp
  · intro cascade
    have hq : decide (bootstrapSentinel = creator) = false :=
      decide_eq_false (fun h => hcsent h.symm)
    constructor
    · have ht1 : removalTargets
          { st with
            roles := { rid := rid, isSuperuser := false, canCreateRole := newCr } :: st.roles,
            edges := { granted := rid, member := creator, grantor := bootstrapSentinel,
                       admin := true, inherit := false, setOpt := false, scope := Scope.Global,
                       eid := st.nextId, parentRef := none } :: st.edges,
            nextId := st.nextId + 1 } rid creator Scope.Global none =
          [{ granted := rid, member := creator, grantor := bootstrapSentinel,
             admin := true, inherit := false, setOpt := false, scope := Scope.Global,
             eid := st.nextId, parentRef := none }] := by
        simp only [removalTargets, List.filter_cons]
        rw [htail]
        · simp
        · intro e hpe
          simp only [Bool.and_eq_true, decide_eq_true_eq] at hpe
          exact hpe.1.1
      simp only [removeEdge, ht1, hsup2, List.all_cons, List.all_nil, Bool.and_true, hq,
        Bool.false_or, Bool.not_false, if_true, ite_true]
    · have ht2 : removalTargets
          { st with
            roles := { rid := rid, isSuperuser := false, canCreateRole := newCr } :: st.roles,
            edges := { granted := rid, member := creator, grantor := bootstrapSentinel,
                       admin := true, inherit := false, setOpt := false, scope := Scope.Global,
                       eid := st.nextId, parentRef := none } :: st.edges,
            nextId := st.nextId + 1 } rid creator Scope.Global (some bootstrapSentinel) =
          [{ granted := rid, member := creator, grantor := bootstrapSentinel,
             admin := true, inherit := false, setOpt := false, scope := Scope.Global,
             eid := st.nextId, parentRef := none }] := by
        simp only [removalTargets, List.filter_cons]
        rw [htail]
        · simp
        · intro e hpe
          simp only [Bool.and_eq_true, decide_eq_true_eq] at hpe
          exact hpe.1.1
      simp only [removeEdge, ht2, hsup2, List.all_cons, List.all_nil, Bool.and_true, hq,
        Bool.false_or, Bool.not_false, if_true, ite_true]
  · intro ctx inh so
    have hadm2 : adminEdgeAt
        { st with
          roles := { rid := rid, isSuperuser := false, canCreateRole := newCr } :: st.roles,
          edges := { granted := rid, member := creator, grantor := bootstrapSentinel,
                     admin := true, inherit := false, setOpt := false, scope := Scope.Global,
                     eid := st.nextId, parentRef := none } :: st.edges,
          nextId := st.nextId + 1 } creator rid Scope.Global = true := by
      unfold adminEdgeAt
      simp
    have hmay : mayAdminister
        { st with
          roles := { rid := rid, isSuperuser := false, canCreateRole := newCr } :: st.roles,
          edges := { granted := rid, member := creator, grantor := bootstrapSentinel,
                     admin := true, inherit := false, setOpt := false, scope := Scope.Global,
                     eid := st.nextId, parentRef := none } :: st.edges,
          nextId := st.nextId + 1 } creator rid Scope.Global ctx.db = true := by
      unfold mayAdminister
      rw [hadm2]
      simp
    have hpath : hasPathDown
        (visibleEdges
          { st with
            roles := { rid := rid, isSuperuser := false, canCreateRole := newCr } :: st.roles,
            edges := { granted := rid, member := creator, grantor := bootstrapSentinel,
                       admin := true, inherit := false, setOpt := false, scope := Scope.Global,
                       eid := st.nextId, parentRef := none } :: st.edges,
            nextId := st.nextId + 1 } Scope.Global) creator rid = false := by
      cases hx : hasPathDown
          (visibleEdges
            { st with
              roles := { rid := rid, isSuperuser := false, canCreateRole := newCr } :: st.roles,
              edges := { granted := rid, member := creator, grantor := bootstrapSentinel,
                         admin := true, inherit := false, setOpt := false,
                         scope := Scope.Global, eid := st.nextId, parentRef := none } ::
                st.edges,
              nextId := st.nextId + 1 } Scope.Global) creator rid
      · rfl
      · exfalso
        obtain ⟨b, hb, hstep⟩ := Relation.TransGen.tail'_iff.1 (hasPathDown_iff.1 hx)
        obtain ⟨e, he, hg2, hm2⟩ := hstep
        unfold visibleEdges at he
        have he2 : e ∈ ({ granted := rid, member := creator, grantor := bootstrapSentinel,
                          admin := true, inherit := false, setOpt := false,
                          scope := Scope.Global, eid := st.nextId,
                          parentRef := none } : MemberEdge) :: st.edges :=
          (List.mem_filter.1 he).1
        rcases List.mem_cons.1 he2 with heq | he3
        · rw [heq] at hm2
          exact hcr hm2
        · exact (hfresh e he3).2 hm2
    have hig : ¬ (creator = publicSentinel ∨ rid = creator) := by
      rintro (h | h)
      · exact hcpub h
      · exact hcr h.symm
    have hne2 : ¬ (({ granted := rid, member := creator, grantor := bootstrapSentinel,
                      admin := true, inherit := false, setOpt := false, scope := Scope.Global,
                      eid := st.nextId, parentRef := none } : MemberEdge) :: st.edges).any
        (fun e => edgeKeyMatches e rid creator creator Scope.Global) = true := by
      intro hany
      obtain ⟨e, he, hk⟩ := List.any_eq_true.1 hany
      simp only [edgeKeyMatches, decide_eq_true_eq] at hk
      rcases List.mem_cons.1 he with heq | he3
      · rw [heq] at hk
        exact hcsent hk.2.2.1.symm
      · exact (hfresh e he3).1 hk.1
    have hbody : grantMembership
        { st with
          roles := { rid := rid, isSuperuser := false, canCreateRole := newCr } :: st.roles,
          edges := { granted := rid, member := creator, grantor := bootstrapSentinel,
                     admin := true, inherit := false, setOpt := false, scope := Scope.Global,
                     eid := st.nextId, parentRef := none } :: st.edges,
          nextId := st.nextId + 1 } ctx creator rid creator true inh so Scope.Global = .ok
        { st with
          roles := { rid := rid, isSuperuser := false, canCreateRole := newCr } :: st.roles,
          edges := { granted := rid, member := creator, grantor := creator, admin := true,
                     inherit := inh, setOpt := so, scope := Scope.Global,
                     eid := st.nextId + 1,
                     parentRef := findAdminEdge
                       { st with
                         roles := { rid := rid, isSuperuser := false,
                                    canCreateRole := newCr } :: st.roles,
                         edges := { granted := rid, member := creator,
                                    grantor := bootstrapSentinel, admin := true,
                                    inherit := false, setOpt := false,
                                    scope := Scope.Global, eid := st.nextId,
                                    parentRef := none } :: st.edges,
                         nextId := st.nextId + 1 } creator rid Scope.Global } ::
            ({ granted := rid, member := creator, grantor := bootstrapSentinel,
               admin := true, inherit := false, setOpt := false, scope := Scope.Global,
               eid := st.nextId, parentRef := none } :: st.edges),
          nextId := st.nextId + 1 + 1 } := by
      unfold grantMembership
      rw [hmay]
      simp only [Bool.not_true, Bool.false_eq_true, if_false, ite_false]
      unfold addEdge
      rw [hpath, hsup2]
      simp only [Bool.false_eq_true, if_false, ite_false, decide_eq_false hig]
      simp only [upsertEdge]
      rw [if_neg hne2]
    refine ⟨_, hbody, ?_, ?_⟩
    · exact List.mem_cons_of_mem _ (List.mem_cons_self _ _)
    · exact ⟨_, List.mem_cons_self _ _, rfl, rfl, rfl, rfl, rfl, rfl, rfl⟩

/-- Witness for C7 at a concrete non-superuser creator with the create-role
capability and a fresh role identifier. -/
theorem createRole_autogrant_spec_witness :
    ∃ st2,
      createRole { roles := [{ rid := 1, isSuperuser := false, canCreateRole := true }],
                   edges := [], grants := [], owners := [], nextId := 0 } 1 2 false false =
        .ok st2 ∧
      st2.edges =
        [{ granted := 2, member := 1, grantor := bootstrapSentinel, admin := true,
           inherit := false, setOpt := false, scope := Scope.Global, eid := 0,
           parentRef := none }] ∧
      hasAdminOption st2 1 2 Scope.Global = true ∧
      (∀ cascade : Bool,
        removeEdge st2 1 2 1 Scope.Global none cascade = .error AuthErr.PermissionDenied ∧
        removeEdge st2 1 2 1 Scope.Global (some bootstrapSentinel) cascade =
          .error AuthErr.PermissionDenied) ∧
      (∀ (ctx : SessionCtx) (inh so : Bool),
        ∃ st3,
          grantMembership st2 ctx 1 2 1 true inh so Scope.Global = .ok st3 ∧
          { granted := 2, member := 1, grantor := bootstrapSentinel, admin := true,
            inherit := false, setOpt := false, scope := Scope.Global, eid := 0,
            parentRef := none } ∈ st3.edges ∧
          ∃ e ∈ st3.edges, e.granted = 2 ∧ e.member = 1 ∧ e.grantor = 1 ∧
            e.admin = true ∧ e.inherit = inh ∧ e.setOpt = so ∧ e.scope = Scope.Global) :=
  createRole_autogrant_spec
    { roles := [{ rid := 1, isSuperuser := false, canCreateRole := true }],
      edges := [], grants := [], owners := [], nextId := 0 } 1 2 false
    (by rfl) (by rfl) (by rfl) (by decide) (by decide) (by decide) (by simp)

/-- C8: membership edges are unique on the key (grantedRole, memberRole,
grantor, scope) in every state reachable through the public operations;
addEdge on an existing key updates that edge's option flags in place
(keeping the multiset of keys unchanged) instead of inserting a second row;
and the same (grantedRole, memberRole, grantor) triple may coexist at
Global scope and at a Database scope in a reachable state, each edge
contributing its own options additively: here the Global edge alone carries
inherit, the Database-5 edge alone carries set, the Database-5 session sees
both, and a Database-7 session sees only the Global edge's options. -/
theorem membership_key_unique_spec :
    (∀ st, ReachableState st → KeyUnique st.edges) ∧
    (∀ (st : AuthState) (g m gr : Nat) (ad inh so : Bool) (sc : Scope) (parent : Option Nat)
       (st2 : AuthState),
      st.edges.any (fun e => edgeKeyMatches e g m gr sc) = true →
      addEdge st g m gr ad inh so sc parent = .ok st2 →
      st2.edges.map edgeKey = st.edges.map edgeKey ∧
      ∀ e ∈ st2.edges, edgeKeyMatches e g m gr sc = true →
        e.admin = ad ∧ e.inherit = inh ∧ e.setOpt = so) ∧
    (ReachableState
      (applyCmd (applyCmd (applyCmd (applyCmd initState
        (Cmd.createR 10 1 false false))
        (Cmd.createR 10 2 false false))
        (Cmd.grantM { loginRole := 10, activeRole := 10, db := 5 } 10 2 1 false true false
          Scope.Global))
        (Cmd.grantM { loginRole := 10, activeRole := 10, db := 5 } 10 2 1 false false true
          (Scope.Database 5))) ∧
     ({ granted := 2, member := 1, grantor := 10, admin := false, inherit := true,
        setOpt := false, scope := Scope.Global, eid := 0, parentRef := none } : MemberEdge) ∈
       (applyCmd (applyCmd (applyCmd (applyCmd initState
         (Cmd.createR 10 1 false false))
         (Cmd.createR 10 2 false false))
         (Cmd.grantM { loginRole := 10, activeRole := 10, db := 5 } 10 2 1 false true false
           Scope.Global))
         (Cmd.grantM { loginRole := 10, activeRole := 10, db := 5 } 10 2 1 false false true
           (Scope.Database 5))).edges ∧
     ({ granted := 2, member := 1, grantor := 10, admin := false, inherit := false,
        setOpt := true, scope := Scope.Database 5, eid := 1, parentRef := none } : MemberEdge) ∈
       (applyCmd (applyCmd (applyCmd (applyCmd initState
         (Cmd.createR 10 1 false false))
         (Cmd.createR 10 2 false false))
         (Cmd.grantM { loginRole := 10, activeRole := 10, db := 5 } 10 2 1 false true false
           Scope.Global))
         (Cmd.grantM { loginRole := 10, activeRole := 10, db := 5 } 10 2 1 false false true
           (Scope.Database 5))).edges ∧
     2 ∈ inheritedClosure
       (applyCmd (applyCmd (applyCmd (applyCmd initState
         (Cmd.createR 10 1 false false))
         (Cmd.createR 10 2 false false))
         (Cmd.grantM { loginRole := 10, activeRole := 10, db := 5 } 10 2 1 false true false
           Scope.Global))
         (Cmd.grantM { loginRole := 10, activeRole := 10, db := 5 } 10 2 1 false false true
           (Scope.Database 5))) 1 (Scope.Database 5) ∧
     2 ∈ setEligibleClosure
       (applyCmd (applyCmd (applyCmd (applyCmd initState
         (Cmd.createR 10 1 false false))
         (Cmd.createR 10 2 false false))
         (Cmd.grantM { loginRole := 10, activeRole := 10, db := 5 } 10 2 1 false true false
           Scope.Global))
         (Cmd.grantM { loginRole := 10, activeRole := 10, db := 5 } 10 2 1 false false true
           (Scope.Database 5))) 1 (Scope.Database 5) ∧
     2 ∉ setEligibleClosure
       (applyCmd (applyCmd (applyCmd (applyCmd initState
         (Cmd.createR 10 1 false false))
         (Cmd.createR 10 2 false false))
         (Cmd.grantM { loginRole := 10, activeRole := 10, db := 5 } 10 2 1 false true false
           Scope.Global))
         (Cmd.grantM { loginRole := 10, activeRole := 10, db := 5 } 10 2 1 false false true
           (Scope.Database 5))) 1 (Scope.Database 7) ∧
     2 ∈ inheritedClosure
       (applyCmd (applyCmd (applyCmd (applyCmd initState
         (Cmd.createR 10 1 false false))
         (Cmd.createR 10 2 false false))
         (Cmd.grantM { loginRole := 10, activeRole := 10, db := 5 } 10 2 1 false true false
           Scope.Global))
         (Cmd.grantM { loginRole := 10, activeRole := 10, db := 5 } 10 2 1 false false true
           (Scope.Database 5))) 1 (Scope.Database 7)) := by
  refine ⟨keyUnique_reachable, ?_, ?_⟩
  · intro st g m gr ad inh so sc parent st2 hany hok
    have hedges := addEdge_ok_inv hok
    rw [hedges]
    unfold upsertEdge
    rw [if_pos hany]
    constructor
    · rw [List.map_map]
      apply List.map_congr_left
      intro e _
      by_cases hc : edgeKeyMatches e g m gr sc = true
      · show edgeKey (if edgeKeyMatches e g m gr sc then
          { e with admin := ad, inherit := inh, setOpt := so } else e) = edgeKey e
        rw [if_pos hc, edgeKey_update]
      · show edgeKey (if edgeKeyMatches e g m gr sc then
          { e with admin := ad, inherit := inh, setOpt := so } else e) = edgeKey e
        rw [if_neg hc]
    · intro e he hm
      obtain ⟨e0, _, heq⟩ := List.mem_map.1 he
      by_cases hc : edgeKeyMatches e0 g m gr sc = true
      · rw [if_pos hc] at heq
        rw [← heq]
        exact ⟨rfl, rfl, rfl⟩
      · rw [if_neg hc] at heq
        rw [← heq] at hm
        exact absurd hm hc
  · refine ⟨?_, by decide, by decide, by decide, by decide, by decide, by decide⟩
    exact ReachableState.step _ _ (ReachableState.step _ _ (ReachableState.step _ _
      (ReachableState.step _ _ ReachableState.init)))

/-- Witness for C8: key uniqueness at the initial state, and the in-place
update of an addEdge on an existing (granted, member, grantor, scope) key at
a concrete one-edge state. -/
theorem membership_key_unique_spec_witness :
    KeyUnique initState.edges ∧
    (({ roles := [], grants := [], owners := [], nextId := 4,
        edges := [{ granted := 2, member := 1, grantor := 10, admin := true, inherit := false,
                    setOpt := true, scope := Scope.Global, eid := 0,
                    parentRef := none }] } : AuthState).edges.map edgeKey =
      ({ roles := [], grants := [], owners := [], nextId := 3,
         edges := [{ granted := 2, member := 1, grantor := 10, admin := false, inherit := true,
                     setOpt := false, scope := Scope.Global, eid := 0,
                     parentRef := none }] } : AuthState).edges.map edgeKey ∧
     ∀ e ∈ ({ roles := [], grants := [], owners := [], nextId := 4,
              edges := [{ granted := 2, member := 1, grantor := 10, admin := true,
                          inherit := false, setOpt := true, scope := Scope.Global, eid := 0,
                          parentRef := none }] } : AuthState).edges,
       edgeKeyMatches e 2 1 10 Scope.Global = true →
         e.admin = true ∧ e.inherit = false ∧ e.setOpt = true) :=
  ⟨membership_key_unique_spec.1 initState ReachableState.init,
   membership_key_unique_spec.2.1
     { roles := [], grants := [], owners := [], nextId := 3,
       edges := [{ granted := 2, member := 1, grantor := 10, admin := false, inherit := true,
                   setOpt := false, scope := Scope.Global, eid := 0, parentRef := none }] }
     2 1 10 true false true Scope.Global none
     { roles := [], grants := [], owners := [], nextId := 4,
       edges := [{ granted := 2, member := 1, grantor := 10, admin := true, inherit := false,
                   setOpt := true, scope := Scope.Global, eid := 0, parentRef := none }] }
     (by rfl) (by rfl)⟩
